import Mathlib

/-!
Verification model of the network protocol client of the bevy_rose
repository (`src/protocol/game_client.rs`) and of the client entity table
(`src/resources/client_entity_list.rs`).

The dispatch logic (`GameClient::handle_packet`,
`GameClient::handle_client_message`, `GameClient::run_connection`) is
embedded directly from the source.  The byte-level wire codec lives in the
external crates `rose_network_irose` / `rose_network_common` and is not part
of this repository; where a definition stands in for that missing code its
doc comment says so explicitly (`Modelled from the spec:`).
-/

/-! ## Byte-reader core

Payload bytes are modelled as `List Nat`.  A reader consumes a prefix of the
byte list and either returns a value together with the unread suffix or a
decode error.  `DecodeError.truncated` models running off the end of the
buffer, `DecodeError.invalid` a byte that matches no legal value.
-/

inductive DecodeError where
  | truncated
  | invalid
deriving Repr, DecidableEq

def Rd (α : Type) : Type := List Nat → Except DecodeError (α × List Nat)

def Rd.pure (a : α) : Rd α := fun bs => .ok (a, bs)

def Rd.bind (r : Rd α) (f : α → Rd β) : Rd β := fun bs =>
  match r bs with
  | .ok (a, rest) => f a rest
  | .error e => .error e

/-- Reader that always fails with `DecodeError.invalid`. -/
def Rd.fail : Rd α := fun _ => .error .invalid

/-- Read one byte; fails with `truncated` on an empty buffer. -/
def rdByte : Rd Nat := fun bs =>
  match bs with
  | [] => .error .truncated
  | b :: rest => .ok (b, rest)

/-- Read exactly `n` raw bytes. -/
def rdBytesN : Nat → Rd (List Nat)
  | 0 => Rd.pure []
  | n + 1 =>
    Rd.bind rdByte fun b =>
    Rd.bind (rdBytesN n) fun bs =>
    Rd.pure (b :: bs)

/-- Little-endian fixed-width unsigned integer, `w` bytes wide. -/
def rdN : Nat → Rd Nat
  | 0 => Rd.pure 0
  | w + 1 =>
    Rd.bind rdByte fun b =>
    Rd.bind (rdN w) fun hi =>
    Rd.pure (b + 256 * hi)

/-- Little-endian encoding of `n` into `w` bytes (mod `256 ^ w`). -/
def wrN : Nat → Nat → List Nat
  | 0, _ => []
  | w + 1, n => n % 256 :: wrN w (n / 256)

/-- Length-prefixed byte string (16-bit length). -/
def wrStr (s : List Nat) : List Nat := wrN 2 s.length ++ s

def rdStr : Rd (List Nat) := Rd.bind (rdN 2) fun n => rdBytesN n

/-- Presence-byte encoding of an optional field. -/
def wrOptWith (wr : α → List Nat) : Option α → List Nat
  | none => [0]
  | some a => 1 :: wr a

def rdOptWith (rd : Rd α) : Rd (Option α) :=
  Rd.bind rdByte fun b =>
    if b = 0 then Rd.pure none
    else Rd.bind rd fun a => Rd.pure (some a)

/-- Count-prefixed list (16-bit count). -/
def wrListWith (wr : α → List Nat) (xs : List α) : List Nat :=
  wrN 2 xs.length ++ (xs.map wr).flatten

def rdCountWith (rd : Rd α) : Nat → Rd (List α)
  | 0 => Rd.pure []
  | n + 1 =>
    Rd.bind rd fun x =>
    Rd.bind (rdCountWith rd n) fun xs =>
    Rd.pure (x :: xs)

def rdListWith (rd : Rd α) : Rd (List α) :=
  Rd.bind (rdN 2) fun n => rdCountWith rd n

/-! ### Reader laws: encoders and decoders agree, and truncation fails -/

theorem Rd.bind_ok {r : Rd α} {f : α → Rd β} {bs : List Nat} {a : α}
    {rest : List Nat} (h : r bs = .ok (a, rest)) :
    Rd.bind r f bs = f a rest := by
  unfold Rd.bind
  rw [h]

theorem Rd.bind_error {r : Rd α} {f : α → Rd β} {bs : List Nat}
    {e : DecodeError} (h : r bs = .error e) :
    Rd.bind r f bs = .error e := by
  unfold Rd.bind
  rw [h]

theorem rdByte_cons (b : Nat) (rest : List Nat) :
    rdByte (b :: rest) = .ok (b, rest) := rfl

theorem rdBytesN_enc (s : List Nat) (rest : List Nat) :
    rdBytesN s.length (s ++ rest) = .ok (s, rest) := by
  induction s generalizing rest with
  | nil => rfl
  | cons b s ih =>
    show rdBytesN (s.length + 1) (b :: (s ++ rest)) = _
    unfold rdBytesN
    rw [Rd.bind_ok (rdByte_cons b _), Rd.bind_ok (ih rest)]
    rfl

theorem rdN_enc (w n : Nat) (h : n < 256 ^ w) (rest : List Nat) :
    rdN w (wrN w n ++ rest) = .ok (n, rest) := by
  induction w generalizing n rest with
  | zero =>
    have hn : n = 0 := Nat.lt_one_iff.mp (by simpa using h)
    subst hn
    rfl
  | succ w ih =>
    have h2 : n / 256 < 256 ^ w := by
      rw [Nat.div_lt_iff_lt_mul (by norm_num : 0 < 256)]
      calc n < 256 ^ (w + 1) := h
        _ = 256 ^ w * 256 := by rw [pow_succ]
    show rdN (w + 1) (n % 256 :: (wrN w (n / 256) ++ rest)) = _
    unfold rdN
    rw [Rd.bind_ok (rdByte_cons _ _), Rd.bind_ok (ih _ h2 rest)]
    show Except.ok (n % 256 + 256 * (n / 256), rest) = _
    rw [Nat.mod_add_div]

theorem rdStr_enc (s : List Nat) (h : s.length < 256 ^ 2) (rest : List Nat) :
    rdStr (wrStr s ++ rest) = .ok (s, rest) := by
  unfold rdStr wrStr
  rw [List.append_assoc, Rd.bind_ok (rdN_enc 2 _ h _), rdBytesN_enc]

theorem rdOptWith_enc {α : Type} (wr : α → List Nat) (rd : Rd α)
    (hcd : ∀ a rest, rd (wr a ++ rest) = .ok (a, rest)) (o : Option α)
    (rest : List Nat) :
    rdOptWith rd (wrOptWith wr o ++ rest) = .ok (o, rest) := by
  cases o with
  | none => rfl
  | some a =>
    show rdOptWith rd (1 :: (wr a ++ rest)) = _
    unfold rdOptWith
    rw [Rd.bind_ok (rdByte_cons 1 _), if_neg (by norm_num), Rd.bind_ok (hcd a rest)]
    rfl

theorem rdCountWith_enc {α : Type} (wr : α → List Nat) (rd : Rd α)
    (hcd : ∀ a rest, rd (wr a ++ rest) = .ok (a, rest)) (xs : List α)
    (rest : List Nat) :
    rdCountWith rd xs.length ((xs.map wr).flatten ++ rest) = .ok (xs, rest) := by
  induction xs generalizing rest with
  | nil => rfl
  | cons x xs ih =>
    show rdCountWith rd (xs.length + 1) ((wr x ++ (xs.map wr).flatten) ++ rest) = _
    unfold rdCountWith
    rw [List.append_assoc, Rd.bind_ok (hcd x _), Rd.bind_ok (ih rest)]
    rfl

theorem rdListWith_enc {α : Type} (wr : α → List Nat) (rd : Rd α)
    (hcd : ∀ a rest, rd (wr a ++ rest) = .ok (a, rest)) (xs : List α)
    (h : xs.length < 256 ^ 2) (rest : List Nat) :
    rdListWith rd (wrListWith wr xs ++ rest) = .ok (xs, rest) := by
  unfold rdListWith wrListWith
  rw [List.append_assoc, Rd.bind_ok (rdN_enc 2 _ h _), rdCountWith_enc wr rd hcd]

/-- A reader stops exactly where it stops: whenever it succeeds it has
consumed a definite prefix, it succeeds on that prefix followed by anything,
and it fails on every strict prefix of the consumed part. -/
def Stops (r : Rd α) : Prop :=
  ∀ bs a rest, r bs = .ok (a, rest) →
    ∃ pre, bs = pre ++ rest ∧
      (∀ rest2, r (pre ++ rest2) = .ok (a, rest2)) ∧
      (∀ k, k < pre.length → ∃ e, r (pre.take k) = .error e)

theorem stops_pure (a : α) : Stops (Rd.pure a) := by
  intro bs a0 rest h
  simp only [Rd.pure, Except.ok.injEq, Prod.mk.injEq] at h
  obtain ⟨ha, hrest⟩ := h
  subst ha; subst hrest
  exact ⟨[], rfl, fun rest2 => rfl, fun k hk => by simp at hk⟩

theorem stops_fail : Stops (Rd.fail : Rd α) := by
  intro bs a rest h
  simp [Rd.fail] at h

theorem stops_rdByte : Stops rdByte := by
  intro bs a rest h
  cases bs with
  | nil => simp [rdByte] at h
  | cons b bs =>
    have hb : b = a ∧ bs = rest := by
      constructor <;> · have := h; simp only [rdByte, Except.ok.injEq, Prod.mk.injEq] at this; tauto
    obtain ⟨hb1, hb2⟩ := hb
    subst hb1
    subst hb2
    refine ⟨[b], rfl, fun rest2 => rfl, fun k hk => ?_⟩
    have hk0 : k = 0 := Nat.lt_one_iff.mp (by simpa using hk)
    subst hk0
    exact ⟨.truncated, rfl⟩

theorem stops_bind {r : Rd α} {f : α → Rd β} (hr : Stops r)
    (hf : ∀ a, Stops (f a)) : Stops (Rd.bind r f) := by
  intro bs b rest h
  cases hr0 : r bs with
  | error e =>
    rw [Rd.bind_error hr0] at h
    exact absurd h (by simp)
  | ok v =>
    obtain ⟨a, mid⟩ := v
    rw [Rd.bind_ok hr0] at h
    obtain ⟨pre1, hbs, hext1, htr1⟩ := hr _ _ _ hr0
    obtain ⟨pre2, hmid, hext2, htr2⟩ := hf a _ _ _ h
    refine ⟨pre1 ++ pre2, by rw [hbs, hmid, List.append_assoc], ?_, ?_⟩
    · intro rest2
      rw [List.append_assoc, Rd.bind_ok (hext1 _), hext2]
    · intro k hk
      simp only [List.length_append] at hk
      rcases Nat.lt_or_ge k pre1.length with hlt | hge
      · obtain ⟨e, he⟩ := htr1 k hlt
        exact ⟨e, by rw [List.take_append_of_le_length (le_of_lt hlt), Rd.bind_error he]⟩
      · obtain ⟨j, hj⟩ : ∃ j, k = pre1.length + j := ⟨k - pre1.length, by omega⟩
        subst hj
        have hjlt : j < pre2.length := by omega
        obtain ⟨e, he⟩ := htr2 j hjlt
        exact ⟨e, by rw [List.take_append, Rd.bind_ok (hext1 _), he]⟩

theorem stops_rdBytesN (n : Nat) : Stops (rdBytesN n) := by
  induction n with
  | zero => exact stops_pure []
  | succ n ih =>
    exact stops_bind stops_rdByte fun b =>
      stops_bind ih fun bs => stops_pure (b :: bs)

theorem stops_rdN (w : Nat) : Stops (rdN w) := by
  induction w with
  | zero => exact stops_pure 0
  | succ w ih =>
    exact stops_bind stops_rdByte fun b =>
      stops_bind ih fun hi => stops_pure (b + 256 * hi)

theorem stops_rdStr : Stops rdStr :=
  stops_bind (stops_rdN 2) fun n => stops_rdBytesN n

theorem stops_rdOptWith {rd : Rd α} (h : Stops rd) : Stops (rdOptWith rd) := by
  refine stops_bind stops_rdByte fun b => ?_
  by_cases hb : b = 0
  · simp only [rdOptWith, hb, if_true]
    exact stops_pure none
  · simp only [rdOptWith, hb, if_false]
    exact stops_bind h fun a => stops_pure (some a)

theorem stops_rdCountWith {rd : Rd α} (h : Stops rd) (n : Nat) :
    Stops (rdCountWith rd n) := by
  induction n with
  | zero => exact stops_pure []
  | succ n ih =>
    exact stops_bind h fun x => stops_bind ih fun xs => stops_pure (x :: xs)

theorem stops_rdListWith {rd : Rd α} (h : Stops rd) : Stops (rdListWith rd) :=
  stops_bind (stops_rdN 2) fun n => stops_rdCountWith h n

/-- Validity of an optional field: the payload, when present, is valid. -/
def OValid (P : α → Prop) : Option α → Prop
  | none => True
  | some a => P a

instance {P : α → Prop} [DecidablePred P] (o : Option α) :
    Decidable (OValid P o) :=
  match o with
  | none => isTrue trivial
  | some a => inferInstanceAs (Decidable (P a))

theorem bind_enc {r : Rd α} {wr : List Nat} {a : α}
    (henc : ∀ rest, r (wr ++ rest) = .ok (a, rest)) (f : α → Rd β)
    (rest : List Nat) :
    Rd.bind r f (wr ++ rest) = f a rest := Rd.bind_ok (henc rest)

theorem rdOptWith_encV {α : Type} (wr : α → List Nat) (rd : Rd α) (P : α → Prop)
    (hcd : ∀ a, P a → ∀ rest, rd (wr a ++ rest) = .ok (a, rest)) (o : Option α)
    (ho : OValid P o) (rest : List Nat) :
    rdOptWith rd (wrOptWith wr o ++ rest) = .ok (o, rest) := by
  cases o with
  | none => rfl
  | some a =>
    show rdOptWith rd (1 :: (wr a ++ rest)) = _
    unfold rdOptWith
    rw [Rd.bind_ok (rdByte_cons 1 _), if_neg (by norm_num), Rd.bind_ok (hcd a ho rest)]
    rfl

theorem rdCountWith_encV {α : Type} (wr : α → List Nat) (rd : Rd α) (P : α → Prop)
    (hcd : ∀ a, P a → ∀ rest, rd (wr a ++ rest) = .ok (a, rest)) (xs : List α)
    (hxs : ∀ a ∈ xs, P a) (rest : List Nat) :
    rdCountWith rd xs.length ((xs.map wr).flatten ++ rest) = .ok (xs, rest) := by
  induction xs generalizing rest with
  | nil => rfl
  | cons x xs ih =>
    show rdCountWith rd (xs.length + 1) ((wr x ++ (xs.map wr).flatten) ++ rest) = _
    unfold rdCountWith
    rw [List.append_assoc, Rd.bind_ok (hcd x (hxs x (List.mem_cons_self x xs)) _),
      Rd.bind_ok (ih (fun a ha => hxs a (List.mem_cons_of_mem _ ha)) rest)]
    rfl

theorem rdListWith_encV {α : Type} (wr : α → List Nat) (rd : Rd α) (P : α → Prop)
    (hcd : ∀ a, P a → ∀ rest, rd (wr a ++ rest) = .ok (a, rest)) (xs : List α)
    (hxs : ∀ a ∈ xs, P a) (hlen : xs.length < 256 ^ 2) (rest : List Nat) :
    rdListWith rd (wrListWith wr xs ++ rest) = .ok (xs, rest) := by
  unfold rdListWith wrListWith
  rw [List.append_assoc, Rd.bind_ok (rdN_enc 2 _ hlen _),
    rdCountWith_encV wr rd P hcd xs hxs rest]

/-! ## Packets and domain messages

`Packet` is the frame the codec hands to the dispatcher: a 16-bit opcode
(`command`) plus the payload bytes, matching `rose_network_common::Packet`.
Text fields are byte strings (`List Nat`); the `to_string` conversions of
the source are the identity on this representation.  Domain types that this
repository never inspects (character info, equipment, positions, floats,
...) are modelled as opaque 32-bit atoms.
-/

structure Packet where
  command : Nat
  data : List Nat
deriving Repr, DecidableEq

/-- The connection-reply result of the external wire struct.  The dispatcher
only distinguishes `ConnectResult::Ok` from everything else; the model keeps
one non-Ok value.  Modelled from the spec: the full enum lives in
`rose_network_irose`. -/
inductive ConnectResult where
  | Ok
  | Failed
deriving Repr, DecidableEq

inductive ConnectionRequestError where
  | Failed
deriving Repr, DecidableEq

structure ConnectionResponse where
  packet_sequence_id : Nat
deriving Repr, DecidableEq

structure CharacterData where
  character_info : Nat
  position : Nat
  basic_stats : Nat
  level : Nat
  equipment : Nat
  experience_points : Nat
  skill_list : Nat
  hotbar : Nat
  health_points : Nat
  mana_points : Nat
  stat_points : Nat
  skill_points : Nat
  union_membership : Nat
  stamina : Nat
deriving Repr, DecidableEq

structure CharacterDataItems where
  inventory : Nat
  equipment : Nat
deriving Repr, DecidableEq

structure CharacterDataQuest where
  quest_state : Nat
deriving Repr, DecidableEq

structure JoinZoneResponse where
  entity_id : Nat
  experience_points : Nat
  team : Nat
  health_points : Nat
  mana_points : Nat
  world_ticks : Nat
deriving Repr, DecidableEq

structure MoveEntity where
  entity_id : Nat
  target_entity_id : Option Nat
  distance : Nat
  x : Nat
  y : Nat
  z : Nat
  move_mode : Option Nat
deriving Repr, DecidableEq

structure SpawnEntityNpc where
  entity_id : Nat
  npc : Nat
  direction : Nat
  position : Nat
  team : Nat
  health : Nat
  destination : Nat
  command : Nat
  target_entity_id : Option Nat
  move_mode : Nat
  status_effects : Nat
deriving Repr, DecidableEq

structure SpawnEntityMonster where
  entity_id : Nat
  npc : Nat
  position : Nat
  team : Nat
  health : Nat
  destination : Nat
  command : Nat
  target_entity_id : Option Nat
  move_mode : Nat
  status_effects : Nat
deriving Repr, DecidableEq

structure RemoveEntities where
  entity_ids : List Nat
deriving Repr, DecidableEq

structure Teleport where
  entity_id : Nat
  zone_id : Nat
  x : Nat
  y : Nat
  run_mode : Nat
  ride_mode : Nat
deriving Repr, DecidableEq

structure LocalChat where
  entity_id : Nat
  text : List Nat
deriving Repr, DecidableEq

structure ShoutChat where
  name : List Nat
  text : List Nat
deriving Repr, DecidableEq

structure AnnounceChat where
  name : Option (List Nat)
  text : List Nat
deriving Repr, DecidableEq

structure Whisper where
  -- the Rust field is named `from`, a reserved word in Lean
  from_ : List Nat
  text : List Nat
deriving Repr, DecidableEq

structure UpdateSpeed where
  entity_id : Nat
  run_speed : Nat
  passive_attack_speed : Nat
deriving Repr, DecidableEq

deriving instance DecidableEq for Except

/-- The tagged union of decoded server messages forwarded to the
application, mirroring `rose_game_common::messages::server::ServerMessage`
restricted to the variants this dispatcher produces. -/
inductive ServerMessage where
  | ConnectionResponse (r : Except ConnectionRequestError ConnectionResponse)
  | CharacterData (d : CharacterData)
  | CharacterDataItems (d : CharacterDataItems)
  | CharacterDataQuest (d : CharacterDataQuest)
  | JoinZone (r : JoinZoneResponse)
  | MoveEntity (m : MoveEntity)
  | SpawnEntityNpc (m : SpawnEntityNpc)
  | SpawnEntityMonster (m : SpawnEntityMonster)
  | RemoveEntities (m : RemoveEntities)
  | Teleport (m : Teleport)
  | LocalChat (m : LocalChat)
  | ShoutChat (m : ShoutChat)
  | AnnounceChat (m : AnnounceChat)
  | Whisper (m : Whisper)
  | UpdateSpeed (m : UpdateSpeed)
deriving Repr, DecidableEq

/-! ## Server wire structs

The structs below mirror the packet structs of
`rose_network_irose::game_server_packets` restricted to the fields the
dispatcher reads.  Modelled from the spec: the byte layout of the external
packet-table crate is not in this repository; each struct is encoded field
by field in declaration order with fixed-width little-endian integers,
16-bit length prefixes for strings and lists, and a presence byte for
optional fields.
-/

def wrConnectResult : ConnectResult → List Nat
  | .Ok => [0]
  | .Failed => [1]

def rdConnectResult : Rd ConnectResult :=
  Rd.bind rdByte fun b =>
    if b = 0 then Rd.pure .Ok
    else if b = 1 then Rd.pure .Failed
    else Rd.fail

theorem rdConnectResult_enc (c : ConnectResult) (rest : List Nat) :
    rdConnectResult (wrConnectResult c ++ rest) = .ok (c, rest) := by
  cases c <;> rfl

theorem stops_rdConnectResult : Stops rdConnectResult := by
  unfold rdConnectResult
  refine stops_bind stops_rdByte fun b => ?_
  by_cases hb0 : b = 0
  · rw [if_pos hb0]
    exact stops_pure _
  · rw [if_neg hb0]
    by_cases hb1 : b = 1
    · rw [if_pos hb1]
      exact stops_pure _
    · rw [if_neg hb1]
      exact stops_fail

theorem rdOpt16_enc (o : Option Nat) (ho : OValid (fun n => n < 256 ^ 2) o)
    (rest : List Nat) :
    rdOptWith (rdN 2) (wrOptWith (wrN 2) o ++ rest) = .ok (o, rest) :=
  rdOptWith_encV _ _ _ (fun a ha r => rdN_enc 2 a ha r) o ho rest

theorem rdOpt8_enc (o : Option Nat) (ho : OValid (fun n => n < 256 ^ 1) o)
    (rest : List Nat) :
    rdOptWith (rdN 1) (wrOptWith (wrN 1) o ++ rest) = .ok (o, rest) :=
  rdOptWith_encV _ _ _ (fun a ha r => rdN_enc 1 a ha r) o ho rest

theorem rdOptStr_enc (o : Option (List Nat))
    (ho : OValid (fun s => s.length < 256 ^ 2) o) (rest : List Nat) :
    rdOptWith rdStr (wrOptWith wrStr o ++ rest) = .ok (o, rest) :=
  rdOptWith_encV _ _ _ (fun a ha r => rdStr_enc a ha r) o ho rest

theorem rdList16_enc (xs : List Nat) (hxs : ∀ a ∈ xs, a < 256 ^ 2)
    (hlen : xs.length < 256 ^ 2) (rest : List Nat) :
    rdListWith (rdN 2) (wrListWith (wrN 2) xs ++ rest) = .ok (xs, rest) :=
  rdListWith_encV _ _ _ (fun a ha r => rdN_enc 2 a ha r) xs hxs hlen rest

structure PacketConnectionReply where
  result : ConnectResult
  packet_sequence_id : Nat
deriving Repr, DecidableEq

def PacketConnectionReply.Valid (w : PacketConnectionReply) : Prop :=
  w.packet_sequence_id < 256 ^ 4

def wrConnectionReply (w : PacketConnectionReply) : List Nat :=
  wrConnectResult w.result ++ wrN 4 w.packet_sequence_id

def rdConnectionReply : Rd PacketConnectionReply :=
  Rd.bind rdConnectResult fun result =>
  Rd.bind (rdN 4) fun packet_sequence_id =>
  Rd.pure { result, packet_sequence_id }

theorem rdConnectionReply_enc (w : PacketConnectionReply) (h : w.Valid)
    (rest : List Nat) :
    rdConnectionReply (wrConnectionReply w ++ rest) = .ok (w, rest) := by
  unfold rdConnectionReply wrConnectionReply
  simp only [List.append_assoc]
  simp only [bind_enc (rdConnectResult_enc w.result), bind_enc (rdN_enc 4 _ h)]
  rfl

theorem stops_rdConnectionReply : Stops rdConnectionReply :=
  stops_bind stops_rdConnectResult fun _ =>
  stops_bind (stops_rdN 4) fun _ =>
  stops_pure _

structure PacketServerSelectCharacter where
  character_info : Nat
  position : Nat
  basic_stats : Nat
  level : Nat
  equipment : Nat
  experience_points : Nat
  skill_list : Nat
  hotbar : Nat
  health_points : Nat
  mana_points : Nat
  stat_points : Nat
  skill_points : Nat
  union_membership : Nat
  stamina : Nat
deriving Repr, DecidableEq

def PacketServerSelectCharacter.Valid (w : PacketServerSelectCharacter) : Prop :=
  w.character_info < 256 ^ 4 ∧ w.position < 256 ^ 4 ∧ w.basic_stats < 256 ^ 4 ∧
    w.level < 256 ^ 4 ∧ w.equipment < 256 ^ 4 ∧ w.experience_points < 256 ^ 4 ∧
    w.skill_list < 256 ^ 4 ∧ w.hotbar < 256 ^ 4 ∧ w.health_points < 256 ^ 4 ∧
    w.mana_points < 256 ^ 4 ∧ w.stat_points < 256 ^ 4 ∧
    w.skill_points < 256 ^ 4 ∧ w.union_membership < 256 ^ 4 ∧
    w.stamina < 256 ^ 4

def wrSelectCharacter (w : PacketServerSelectCharacter) : List Nat :=
  wrN 4 w.character_info ++ wrN 4 w.position ++ wrN 4 w.basic_stats ++
    wrN 4 w.level ++ wrN 4 w.equipment ++ wrN 4 w.experience_points ++
    wrN 4 w.skill_list ++ wrN 4 w.hotbar ++ wrN 4 w.health_points ++
    wrN 4 w.mana_points ++ wrN 4 w.stat_points ++ wrN 4 w.skill_points ++
    wrN 4 w.union_membership ++ wrN 4 w.stamina

def rdSelectCharacter : Rd PacketServerSelectCharacter :=
  Rd.bind (rdN 4) fun character_info =>
  Rd.bind (rdN 4) fun position =>
  Rd.bind (rdN 4) fun basic_stats =>
  Rd.bind (rdN 4) fun level =>
  Rd.bind (rdN 4) fun equipment =>
  Rd.bind (rdN 4) fun experience_points =>
  Rd.bind (rdN 4) fun skill_list =>
  Rd.bind (rdN 4) fun hotbar =>
  Rd.bind (rdN 4) fun health_points =>
  Rd.bind (rdN 4) fun mana_points =>
  Rd.bind (rdN 4) fun stat_points =>
  Rd.bind (rdN 4) fun skill_points =>
  Rd.bind (rdN 4) fun union_membership =>
  Rd.bind (rdN 4) fun stamina =>
  Rd.pure { character_info, position, basic_stats, level, equipment,
            experience_points, skill_list, hotbar, health_points, mana_points,
            stat_points, skill_points, union_membership, stamina }

theorem rdSelectCharacter_enc (w : PacketServerSelectCharacter) (h : w.Valid)
    (rest : List Nat) :
    rdSelectCharacter (wrSelectCharacter w ++ rest) = .ok (w, rest) := by
  obtain ⟨h1, h2, h3, h4, h5, h6, h7, h8, h9, h10, h11, h12, h13, h14⟩ := h
  unfold rdSelectCharacter wrSelectCharacter
  simp only [List.append_assoc]
  simp only [bind_enc (rdN_enc 4 _ h1), bind_enc (rdN_enc 4 _ h2),
    bind_enc (rdN_enc 4 _ h3), bind_enc (rdN_enc 4 _ h4),
    bind_enc (rdN_enc 4 _ h5), bind_enc (rdN_enc 4 _ h6),
    bind_enc (rdN_enc 4 _ h7), bind_enc (rdN_enc 4 _ h8),
    bind_enc (rdN_enc 4 _ h9), bind_enc (rdN_enc 4 _ h10),
    bind_enc (rdN_enc 4 _ h11), bind_enc (rdN_enc 4 _ h12),
    bind_enc (rdN_enc 4 _ h13), bind_enc (rdN_enc 4 _ h14)]
  rfl

theorem stops_rdSelectCharacter : Stops rdSelectCharacter :=
  stops_bind (stops_rdN 4) fun _ => stops_bind (stops_rdN 4) fun _ =>
  stops_bind (stops_rdN 4) fun _ => stops_bind (stops_rdN 4) fun _ =>
  stops_bind (stops_rdN 4) fun _ => stops_bind (stops_rdN 4) fun _ =>
  stops_bind (stops_rdN 4) fun _ => stops_bind (stops_rdN 4) fun _ =>
  stops_bind (stops_rdN 4) fun _ => stops_bind (stops_rdN 4) fun _ =>
  stops_bind (stops_rdN 4) fun _ => stops_bind (stops_rdN 4) fun _ =>
  stops_bind (stops_rdN 4) fun _ => stops_bind (stops_rdN 4) fun _ =>
  stops_pure _

structure PacketServerCharacterInventory where
  inventory : Nat
  equipment : Nat
deriving Repr, DecidableEq

def PacketServerCharacterInventory.Valid
    (w : PacketServerCharacterInventory) : Prop :=
  w.inventory < 256 ^ 4 ∧ w.equipment < 256 ^ 4

def wrCharacterInventory (w : PacketServerCharacterInventory) : List Nat :=
  wrN 4 w.inventory ++ wrN 4 w.equipment

def rdCharacterInventory : Rd PacketServerCharacterInventory :=
  Rd.bind (rdN 4) fun inventory =>
  Rd.bind (rdN 4) fun equipment =>
  Rd.pure { inventory, equipment }

theorem rdCharacterInventory_enc (w : PacketServerCharacterInventory)
    (h : w.Valid) (rest : List Nat) :
    rdCharacterInventory (wrCharacterInventory w ++ rest) = .ok (w, rest) := by
  obtain ⟨h1, h2⟩ := h
  unfold rdCharacterInventory wrCharacterInventory
  simp only [List.append_assoc]
  simp only [bind_enc (rdN_enc 4 _ h1), bind_enc (rdN_enc 4 _ h2)]
  rfl

theorem stops_rdCharacterInventory : Stops rdCharacterInventory :=
  stops_bind (stops_rdN 4) fun _ => stops_bind (stops_rdN 4) fun _ =>
  stops_pure _

structure PacketServerCharacterQuestData where
  quest_state : Nat
deriving Repr, DecidableEq

def PacketServerCharacterQuestData.Valid
    (w : PacketServerCharacterQuestData) : Prop :=
  w.quest_state < 256 ^ 4

def wrCharacterQuestData (w : PacketServerCharacterQuestData) : List Nat :=
  wrN 4 w.quest_state

def rdCharacterQuestData : Rd PacketServerCharacterQuestData :=
  Rd.bind (rdN 4) fun quest_state =>
  Rd.pure { quest_state }

theorem rdCharacterQuestData_enc (w : PacketServerCharacterQuestData)
    (h : w.Valid) (rest : List Nat) :
    rdCharacterQuestData (wrCharacterQuestData w ++ rest) = .ok (w, rest) := by
  unfold rdCharacterQuestData wrCharacterQuestData
  simp only [bind_enc (rdN_enc 4 _ h)]
  rfl

theorem stops_rdCharacterQuestData : Stops rdCharacterQuestData :=
  stops_bind (stops_rdN 4) fun _ => stops_pure _

structure PacketServerJoinZone where
  entity_id : Nat
  experience_points : Nat
  team : Nat
  health_points : Nat
  mana_points : Nat
  world_ticks : Nat
deriving Repr, DecidableEq

def PacketServerJoinZone.Valid (w : PacketServerJoinZone) : Prop :=
  w.entity_id < 256 ^ 2 ∧ w.experience_points < 256 ^ 4 ∧ w.team < 256 ^ 4 ∧
    w.health_points < 256 ^ 4 ∧ w.mana_points < 256 ^ 4 ∧
    w.world_ticks < 256 ^ 4

def wrJoinZone (w : PacketServerJoinZone) : List Nat :=
  wrN 2 w.entity_id ++ wrN 4 w.experience_points ++ wrN 4 w.team ++
    wrN 4 w.health_points ++ wrN 4 w.mana_points ++ wrN 4 w.world_ticks

def rdJoinZone : Rd PacketServerJoinZone :=
  Rd.bind (rdN 2) fun entity_id =>
  Rd.bind (rdN 4) fun experience_points =>
  Rd.bind (rdN 4) fun team =>
  Rd.bind (rdN 4) fun health_points =>
  Rd.bind (rdN 4) fun mana_points =>
  Rd.bind (rdN 4) fun world_ticks =>
  Rd.pure { entity_id, experience_points, team, health_points, mana_points,
            world_ticks }

theorem rdJoinZone_enc (w : PacketServerJoinZone) (h : w.Valid)
    (rest : List Nat) :
    rdJoinZone (wrJoinZone w ++ rest) = .ok (w, rest) := by
  obtain ⟨h1, h2, h3, h4, h5, h6⟩ := h
  unfold rdJoinZone wrJoinZone
  simp only [List.append_assoc]
  simp only [bind_enc (rdN_enc 2 _ h1), bind_enc (rdN_enc 4 _ h2),
    bind_enc (rdN_enc 4 _ h3), bind_enc (rdN_enc 4 _ h4),
    bind_enc (rdN_enc 4 _ h5), bind_enc (rdN_enc 4 _ h6)]
  rfl

theorem stops_rdJoinZone : Stops rdJoinZone :=
  stops_bind (stops_rdN 2) fun _ => stops_bind (stops_rdN 4) fun _ =>
  stops_bind (stops_rdN 4) fun _ => stops_bind (stops_rdN 4) fun _ =>
  stops_bind (stops_rdN 4) fun _ => stops_bind (stops_rdN 4) fun _ =>
  stops_pure _

structure PacketServerMoveEntity where
  entity_id : Nat
  target_entity_id : Option Nat
  distance : Nat
  x : Nat
  y : Nat
  z : Nat
  move_mode : Option Nat
deriving Repr, DecidableEq

def PacketServerMoveEntity.Valid (w : PacketServerMoveEntity) : Prop :=
  w.entity_id < 256 ^ 2 ∧ OValid (fun n => n < 256 ^ 2) w.target_entity_id ∧
    w.distance < 256 ^ 2 ∧ w.x < 256 ^ 4 ∧ w.y < 256 ^ 4 ∧ w.z < 256 ^ 2 ∧
    OValid (fun n => n < 256 ^ 1) w.move_mode

def wrMoveEntity (w : PacketServerMoveEntity) : List Nat :=
  wrN 2 w.entity_id ++ wrOptWith (wrN 2) w.target_entity_id ++
    wrN 2 w.distance ++ wrN 4 w.x ++ wrN 4 w.y ++ wrN 2 w.z ++
    wrOptWith (wrN 1) w.move_mode

def rdMoveEntity : Rd PacketServerMoveEntity :=
  Rd.bind (rdN 2) fun entity_id =>
  Rd.bind (rdOptWith (rdN 2)) fun target_entity_id =>
  Rd.bind (rdN 2) fun distance =>
  Rd.bind (rdN 4) fun x =>
  Rd.bind (rdN 4) fun y =>
  Rd.bind (rdN 2) fun z =>
  Rd.bind (rdOptWith (rdN 1)) fun move_mode =>
  Rd.pure { entity_id, target_entity_id, distance, x, y, z, move_mode }

theorem rdMoveEntity_enc (w : PacketServerMoveEntity) (h : w.Valid)
    (rest : List Nat) :
    rdMoveEntity (wrMoveEntity w ++ rest) = .ok (w, rest) := by
  obtain ⟨h1, h2, h3, h4, h5, h6, h7⟩ := h
  unfold rdMoveEntity wrMoveEntity
  simp only [List.append_assoc]
  simp only [bind_enc (rdN_enc 2 _ h1), bind_enc (rdOpt16_enc _ h2),
    bind_enc (rdN_enc 2 _ h3), bind_enc (rdN_enc 4 _ h4),
    bind_enc (rdN_enc 4 _ h5), bind_enc (rdN_enc 2 _ h6),
    bind_enc (rdOpt8_enc _ h7)]
  rfl

theorem stops_rdMoveEntity : Stops rdMoveEntity :=
  stops_bind (stops_rdN 2) fun _ =>
  stops_bind (stops_rdOptWith (stops_rdN 2)) fun _ =>
  stops_bind (stops_rdN 2) fun _ => stops_bind (stops_rdN 4) fun _ =>
  stops_bind (stops_rdN 4) fun _ => stops_bind (stops_rdN 2) fun _ =>
  stops_bind (stops_rdOptWith (stops_rdN 1)) fun _ =>
  stops_pure _

structure PacketServerSpawnEntityNpc where
  entity_id : Nat
  npc : Nat
  direction : Nat
  position : Nat
  team : Nat
  health : Nat
  destination : Nat
  command : Nat
  target_entity_id : Option Nat
  move_mode : Nat
  status_effects : Nat
deriving Repr, DecidableEq

def PacketServerSpawnEntityNpc.Valid (w : PacketServerSpawnEntityNpc) : Prop :=
  w.entity_id < 256 ^ 2 ∧ w.npc < 256 ^ 4 ∧ w.direction < 256 ^ 4 ∧
    w.position < 256 ^ 4 ∧ w.team < 256 ^ 4 ∧ w.health < 256 ^ 4 ∧
    w.destination < 256 ^ 4 ∧ w.command < 256 ^ 4 ∧
    OValid (fun n => n < 256 ^ 2) w.target_entity_id ∧ w.move_mode < 256 ^ 4 ∧
    w.status_effects < 256 ^ 4

def wrSpawnEntityNpc (w : PacketServerSpawnEntityNpc) : List Nat :=
  wrN 2 w.entity_id ++ wrN 4 w.npc ++ wrN 4 w.direction ++ wrN 4 w.position ++
    wrN 4 w.team ++ wrN 4 w.health ++ wrN 4 w.destination ++ wrN 4 w.command ++
    wrOptWith (wrN 2) w.target_entity_id ++ wrN 4 w.move_mode ++
    wrN 4 w.status_effects

def rdSpawnEntityNpc : Rd PacketServerSpawnEntityNpc :=
  Rd.bind (rdN 2) fun entity_id =>
  Rd.bind (rdN 4) fun npc =>
  Rd.bind (rdN 4) fun direction =>
  Rd.bind (rdN 4) fun position =>
  Rd.bind (rdN 4) fun team =>
  Rd.bind (rdN 4) fun health =>
  Rd.bind (rdN 4) fun destination =>
  Rd.bind (rdN 4) fun command =>
  Rd.bind (rdOptWith (rdN 2)) fun target_entity_id =>
  Rd.bind (rdN 4) fun move_mode =>
  Rd.bind (rdN 4) fun status_effects =>
  Rd.pure { entity_id, npc, direction, position, team, health, destination,
            command, target_entity_id, move_mode, status_effects }

theorem rdSpawnEntityNpc_enc (w : PacketServerSpawnEntityNpc) (h : w.Valid)
    (rest : List Nat) :
    rdSpawnEntityNpc (wrSpawnEntityNpc w ++ rest) = .ok (w, rest) := by
  obtain ⟨h1, h2, h3, h4, h5, h6, h7, h8, h9, h10, h11⟩ := h
  unfold rdSpawnEntityNpc wrSpawnEntityNpc
  simp only [List.append_assoc]
  simp only [bind_enc (rdN_enc 2 _ h1), bind_enc (rdN_enc 4 _ h2),
    bind_enc (rdN_enc 4 _ h3), bind_enc (rdN_enc 4 _ h4),
    bind_enc (rdN_enc 4 _ h5), bind_enc (rdN_enc 4 _ h6),
    bind_enc (rdN_enc 4 _ h7), bind_enc (rdN_enc 4 _ h8),
    bind_enc (rdOpt16_enc _ h9), bind_enc (rdN_enc 4 _ h10),
    bind_enc (rdN_enc 4 _ h11)]
  rfl

theorem stops_rdSpawnEntityNpc : Stops rdSpawnEntityNpc :=
  stops_bind (stops_rdN 2) fun _ => stops_bind (stops_rdN 4) fun _ =>
  stops_bind (stops_rdN 4) fun _ => stops_bind (stops_rdN 4) fun _ =>
  stops_bind (stops_rdN 4) fun _ => stops_bind (stops_rdN 4) fun _ =>
  stops_bind (stops_rdN 4) fun _ => stops_bind (stops_rdN 4) fun _ =>
  stops_bind (stops_rdOptWith (stops_rdN 2)) fun _ =>
  stops_bind (stops_rdN 4) fun _ => stops_bind (stops_rdN 4) fun _ =>
  stops_pure _

structure PacketServerSpawnEntityMonster where
  entity_id : Nat
  npc : Nat
  position : Nat
  team : Nat
  health : Nat
  destination : Nat
  command : Nat
  target_entity_id : Option Nat
  move_mode : Nat
  status_effects : Nat
deriving Repr, DecidableEq

def PacketServerSpawnEntityMonster.Valid
    (w : PacketServerSpawnEntityMonster) : Prop :=
  w.entity_id < 256 ^ 2 ∧ w.npc < 256 ^ 4 ∧ w.position < 256 ^ 4 ∧
    w.team < 256 ^ 4 ∧ w.health < 256 ^ 4 ∧ w.destination < 256 ^ 4 ∧
    w.command < 256 ^ 4 ∧ OValid (fun n => n < 256 ^ 2) w.target_entity_id ∧
    w.move_mode < 256 ^ 4 ∧ w.status_effects < 256 ^ 4

def wrSpawnEntityMonster (w : PacketServerSpawnEntityMonster) : List Nat :=
  wrN 2 w.entity_id ++ wrN 4 w.npc ++ wrN 4 w.position ++ wrN 4 w.team ++
    wrN 4 w.health ++ wrN 4 w.destination ++ wrN 4 w.command ++
    wrOptWith (wrN 2) w.target_entity_id ++ wrN 4 w.move_mode ++
    wrN 4 w.status_effects

def rdSpawnEntityMonster : Rd PacketServerSpawnEntityMonster :=
  Rd.bind (rdN 2) fun entity_id =>
  Rd.bind (rdN 4) fun npc =>
  Rd.bind (rdN 4) fun position =>
  Rd.bind (rdN 4) fun team =>
  Rd.bind (rdN 4) fun health =>
  Rd.bind (rdN 4) fun destination =>
  Rd.bind (rdN 4) fun command =>
  Rd.bind (rdOptWith (rdN 2)) fun target_entity_id =>
  Rd.bind (rdN 4) fun move_mode =>
  Rd.bind (rdN 4) fun status_effects =>
  Rd.pure { entity_id, npc, position, team, health, destination, command,
            target_entity_id, move_mode, status_effects }

theorem rdSpawnEntityMonster_enc (w : PacketServerSpawnEntityMonster)
    (h : w.Valid) (rest : List Nat) :
    rdSpawnEntityMonster (wrSpawnEntityMonster w ++ rest) = .ok (w, rest) := by
  obtain ⟨h1, h2, h3, h4, h5, h6, h7, h8, h9, h10⟩ := h
  unfold rdSpawnEntityMonster wrSpawnEntityMonster
  simp only [List.append_assoc]
  simp only [bind_enc (rdN_enc 2 _ h1), bind_enc (rdN_enc 4 _ h2),
    bind_enc (rdN_enc 4 _ h3), bind_enc (rdN_enc 4 _ h4),
    bind_enc (rdN_enc 4 _ h5), bind_enc (rdN_enc 4 _ h6),
    bind_enc (rdN_enc 4 _ h7), bind_enc (rdOpt16_enc _ h8),
    bind_enc (rdN_enc 4 _ h9), bind_enc (rdN_enc 4 _ h10)]
  rfl

theorem stops_rdSpawnEntityMonster : Stops rdSpawnEntityMonster :=
  stops_bind (stops_rdN 2) fun _ => stops_bind (stops_rdN 4) fun _ =>
  stops_bind (stops_rdN 4) fun _ => stops_bind (stops_rdN 4) fun _ =>
  stops_bind (stops_rdN 4) fun _ => stops_bind (stops_rdN 4) fun _ =>
  stops_bind (stops_rdN 4) fun _ =>
  stops_bind (stops_rdOptWith (stops_rdN 2)) fun _ =>
  stops_bind (stops_rdN 4) fun _ => stops_bind (stops_rdN 4) fun _ =>
  stops_pure _

structure PacketServerRemoveEntities where
  entity_ids : List Nat
deriving Repr, DecidableEq

def PacketServerRemoveEntities.Valid (w : PacketServerRemoveEntities) : Prop :=
  w.entity_ids.length < 256 ^ 2 ∧ ∀ a ∈ w.entity_ids, a < 256 ^ 2

def wrRemoveEntities (w : PacketServerRemoveEntities) : List Nat :=
  wrListWith (wrN 2) w.entity_ids

def rdRemoveEntities : Rd PacketServerRemoveEntities :=
  Rd.bind (rdListWith (rdN 2)) fun entity_ids =>
  Rd.pure { entity_ids }

theorem rdRemoveEntities_enc (w : PacketServerRemoveEntities) (h : w.Valid)
    (rest : List Nat) :
    rdRemoveEntities (wrRemoveEntities w ++ rest) = .ok (w, rest) := by
  obtain ⟨h1, h2⟩ := h
  unfold rdRemoveEntities wrRemoveEntities
  simp only [bind_enc (rdList16_enc _ h2 h1)]
  rfl

theorem stops_rdRemoveEntities : Stops rdRemoveEntities :=
  stops_bind (stops_rdListWith (stops_rdN 2)) fun _ => stops_pure _

structure PacketServerTeleport where
  entity_id : Nat
  zone_id : Nat
  x : Nat
  y : Nat
  run_mode : Nat
  ride_mode : Nat
deriving Repr, DecidableEq

def PacketServerTeleport.Valid (w : PacketServerTeleport) : Prop :=
  w.entity_id < 256 ^ 2 ∧ w.zone_id < 256 ^ 2 ∧ w.x < 256 ^ 4 ∧
    w.y < 256 ^ 4 ∧ w.run_mode < 256 ^ 1 ∧ w.ride_mode < 256 ^ 1

def wrTeleport (w : PacketServerTeleport) : List Nat :=
  wrN 2 w.entity_id ++ wrN 2 w.zone_id ++ wrN 4 w.x ++ wrN 4 w.y ++
    wrN 1 w.run_mode ++ wrN 1 w.ride_mode

def rdTeleport : Rd PacketServerTeleport :=
  Rd.bind (rdN 2) fun entity_id =>
  Rd.bind (rdN 2) fun zone_id =>
  Rd.bind (rdN 4) fun x =>
  Rd.bind (rdN 4) fun y =>
  Rd.bind (rdN 1) fun run_mode =>
  Rd.bind (rdN 1) fun ride_mode =>
  Rd.pure { entity_id, zone_id, x, y, run_mode, ride_mode }

theorem rdTeleport_enc (w : PacketServerTeleport) (h : w.Valid)
    (rest : List Nat) :
    rdTeleport (wrTeleport w ++ rest) = .ok (w, rest) := by
  obtain ⟨h1, h2, h3, h4, h5, h6⟩ := h
  unfold rdTeleport wrTeleport
  simp only [List.append_assoc]
  simp only [bind_enc (rdN_enc 2 _ h1), bind_enc (rdN_enc 2 _ h2),
    bind_enc (rdN_enc 4 _ h3), bind_enc (rdN_enc 4 _ h4),
    bind_enc (rdN_enc 1 _ h5), bind_enc (rdN_enc 1 _ h6)]
  rfl

theorem stops_rdTeleport : Stops rdTeleport :=
  stops_bind (stops_rdN 2) fun _ => stops_bind (stops_rdN 2) fun _ =>
  stops_bind (stops_rdN 4) fun _ => stops_bind (stops_rdN 4) fun _ =>
  stops_bind (stops_rdN 1) fun _ => stops_bind (stops_rdN 1) fun _ =>
  stops_pure _

structure PacketServerLocalChat where
  entity_id : Nat
  text : List Nat
deriving Repr, DecidableEq

def PacketServerLocalChat.Valid (w : PacketServerLocalChat) : Prop :=
  w.entity_id < 256 ^ 2 ∧ w.text.length < 256 ^ 2

def wrLocalChat (w : PacketServerLocalChat) : List Nat :=
  wrN 2 w.entity_id ++ wrStr w.text

def rdLocalChat : Rd PacketServerLocalChat :=
  Rd.bind (rdN 2) fun entity_id =>
  Rd.bind rdStr fun text =>
  Rd.pure { entity_id, text }

theorem rdLocalChat_enc (w : PacketServerLocalChat) (h : w.Valid)
    (rest : List Nat) :
    rdLocalChat (wrLocalChat w ++ rest) = .ok (w, rest) := by
  obtain ⟨h1, h2⟩ := h
  unfold rdLocalChat wrLocalChat
  simp only [List.append_assoc]
  simp only [bind_enc (rdN_enc 2 _ h1), bind_enc (rdStr_enc _ h2)]
  rfl

theorem stops_rdLocalChat : Stops rdLocalChat :=
  stops_bind (stops_rdN 2) fun _ => stops_bind stops_rdStr fun _ =>
  stops_pure _

structure PacketServerShoutChat where
  name : List Nat
  text : List Nat
deriving Repr, DecidableEq

def PacketServerShoutChat.Valid (w : PacketServerShoutChat) : Prop :=
  w.name.length < 256 ^ 2 ∧ w.text.length < 256 ^ 2

def wrShoutChat (w : PacketServerShoutChat) : List Nat :=
  wrStr w.name ++ wrStr w.text

def rdShoutChat : Rd PacketServerShoutChat :=
  Rd.bind rdStr fun name =>
  Rd.bind rdStr fun text =>
  Rd.pure { name, text }

theorem rdShoutChat_enc (w : PacketServerShoutChat) (h : w.Valid)
    (rest : List Nat) :
    rdShoutChat (wrShoutChat w ++ rest) = .ok (w, rest) := by
  obtain ⟨h1, h2⟩ := h
  unfold rdShoutChat wrShoutChat
  simp only [List.append_assoc]
  simp only [bind_enc (rdStr_enc _ h1), bind_enc (rdStr_enc _ h2)]
  rfl

theorem stops_rdShoutChat : Stops rdShoutChat :=
  stops_bind stops_rdStr fun _ => stops_bind stops_rdStr fun _ =>
  stops_pure _

structure PacketServerAnnounceChat where
  name : Option (List Nat)
  text : List Nat
deriving Repr, DecidableEq

def PacketServerAnnounceChat.Valid (w : PacketServerAnnounceChat) : Prop :=
  OValid (fun s => s.length < 256 ^ 2) w.name ∧ w.text.length < 256 ^ 2

def wrAnnounceChat (w : PacketServerAnnounceChat) : List Nat :=
  wrOptWith wrStr w.name ++ wrStr w.text

def rdAnnounceChat : Rd PacketServerAnnounceChat :=
  Rd.bind (rdOptWith rdStr) fun name =>
  Rd.bind rdStr fun text =>
  Rd.pure { name, text }

theorem rdAnnounceChat_enc (w : PacketServerAnnounceChat) (h : w.Valid)
    (rest : List Nat) :
    rdAnnounceChat (wrAnnounceChat w ++ rest) = .ok (w, rest) := by
  obtain ⟨h1, h2⟩ := h
  unfold rdAnnounceChat wrAnnounceChat
  simp only [List.append_assoc]
  simp only [bind_enc (rdOptStr_enc _ h1), bind_enc (rdStr_enc _ h2)]
  rfl

theorem stops_rdAnnounceChat : Stops rdAnnounceChat :=
  stops_bind (stops_rdOptWith stops_rdStr) fun _ =>
  stops_bind stops_rdStr fun _ => stops_pure _

structure PacketServerWhisper where
  -- the Rust field is named `from`, a reserved word in Lean
  from_ : List Nat
  text : List Nat
deriving Repr, DecidableEq

def PacketServerWhisper.Valid (w : PacketServerWhisper) : Prop :=
  w.from_.length < 256 ^ 2 ∧ w.text.length < 256 ^ 2

def wrWhisper (w : PacketServerWhisper) : List Nat :=
  wrStr w.from_ ++ wrStr w.text

def rdWhisper : Rd PacketServerWhisper :=
  Rd.bind rdStr fun from_ =>
  Rd.bind rdStr fun text =>
  Rd.pure { from_, text }

theorem rdWhisper_enc (w : PacketServerWhisper) (h : w.Valid)
    (rest : List Nat) :
    rdWhisper (wrWhisper w ++ rest) = .ok (w, rest) := by
  obtain ⟨h1, h2⟩ := h
  unfold rdWhisper wrWhisper
  simp only [List.append_assoc]
  simp only [bind_enc (rdStr_enc _ h1), bind_enc (rdStr_enc _ h2)]
  rfl

theorem stops_rdWhisper : Stops rdWhisper :=
  stops_bind stops_rdStr fun _ => stops_bind stops_rdStr fun _ =>
  stops_pure _

structure PacketServerUpdateSpeed where
  entity_id : Nat
  run_speed : Nat
  passive_attack_speed : Nat
deriving Repr, DecidableEq

def PacketServerUpdateSpeed.Valid (w : PacketServerUpdateSpeed) : Prop :=
  w.entity_id < 256 ^ 2 ∧ w.run_speed < 256 ^ 2 ∧
    w.passive_attack_speed < 256 ^ 2

def wrUpdateSpeed (w : PacketServerUpdateSpeed) : List Nat :=
  wrN 2 w.entity_id ++ wrN 2 w.run_speed ++ wrN 2 w.passive_attack_speed

def rdUpdateSpeed : Rd PacketServerUpdateSpeed :=
  Rd.bind (rdN 2) fun entity_id =>
  Rd.bind (rdN 2) fun run_speed =>
  Rd.bind (rdN 2) fun passive_attack_speed =>
  Rd.pure { entity_id, run_speed, passive_attack_speed }

theorem rdUpdateSpeed_enc (w : PacketServerUpdateSpeed) (h : w.Valid)
    (rest : List Nat) :
    rdUpdateSpeed (wrUpdateSpeed w ++ rest) = .ok (w, rest) := by
  obtain ⟨h1, h2, h3⟩ := h
  unfold rdUpdateSpeed wrUpdateSpeed
  simp only [List.append_assoc]
  simp only [bind_enc (rdN_enc 2 _ h1), bind_enc (rdN_enc 2 _ h2),
    bind_enc (rdN_enc 2 _ h3)]
  rfl

theorem stops_rdUpdateSpeed : Stops rdUpdateSpeed :=
  stops_bind (stops_rdN 2) fun _ => stops_bind (stops_rdN 2) fun _ =>
  stops_bind (stops_rdN 2) fun _ => stops_pure _

/-! ## Opcode dispatch (`GameClient::handle_packet`) -/

inductive ServerPackets where
  | ConnectReply
  | SelectCharacter
  | CharacterInventory
  | QuestData
  | JoinZone
  | MoveEntity
  | MoveEntityWithMoveMode
  | SpawnEntityNpc
  | SpawnEntityMonster
  | RemoveEntities
  | Teleport
  | LocalChat
  | ShoutChat
  | AnnounceChat
  | Whisper
  | UpdateSpeed
deriving Repr, DecidableEq

/-- Modelled from the spec: the numeric opcode of each `ServerPackets`
variant is defined in the external `rose_network_irose` crate; the model
assigns distinct 16-bit values.  This is `FromPrimitive::from_u16`. -/
def serverPacketsFromU16 : Nat → Option ServerPackets
  | 1 => some .ConnectReply
  | 2 => some .SelectCharacter
  | 3 => some .CharacterInventory
  | 4 => some .QuestData
  | 5 => some .JoinZone
  | 6 => some .MoveEntity
  | 7 => some .MoveEntityWithMoveMode
  | 8 => some .SpawnEntityNpc
  | 9 => some .SpawnEntityMonster
  | 10 => some .RemoveEntities
  | 11 => some .Teleport
  | 12 => some .LocalChat
  | 13 => some .ShoutChat
  | 14 => some .AnnounceChat
  | 15 => some .Whisper
  | 16 => some .UpdateSpeed
  | _ => none

def ServerPackets.toU16 : ServerPackets → Nat
  | .ConnectReply => 1
  | .SelectCharacter => 2
  | .CharacterInventory => 3
  | .QuestData => 4
  | .JoinZone => 5
  | .MoveEntity => 6
  | .MoveEntityWithMoveMode => 7
  | .SpawnEntityNpc => 8
  | .SpawnEntityMonster => 9
  | .RemoveEntities => 10
  | .Teleport => 11
  | .LocalChat => 12
  | .ShoutChat => 13
  | .AnnounceChat => 14
  | .Whisper => 15
  | .UpdateSpeed => 16

inductive ChannelSendError where
  | disconnected
deriving Repr, DecidableEq

/-- `crossbeam_channel::Sender::send`: fails exactly when the receiving side
of the server-message channel has been dropped (`chOpen = false`). -/
def channelSend (chOpen : Bool) (m : ServerMessage) :
    Except ChannelSendError Unit :=
  match m with
  | _ => if chOpen then .ok () else .error .disconnected

/-- What one `handle_packet` call did: the messages passed to
`server_message_tx.send` and the opcodes printed as unhandled. -/
structure HandleOut where
  sent : List ServerMessage
  logged : List Nat
deriving Repr, DecidableEq

/-- One `self.server_message_tx.send(m).ok()` call: the send result is
converted to an `Option` and discarded, so the outcome does not depend on
whether the channel is still open. -/
def sendDiscardOne (chOpen : Bool) (m : ServerMessage) : HandleOut :=
  match (channelSend chOpen m).toOption with
  | _ => { sent := [m], logged := [] }

/-- `PacketX::try_from(&packet)`: run the wire decoder on the payload. -/
def tryFrom (rd : Rd α) (p : Packet) : Except DecodeError α :=
  match rd p.data with
  | .ok (a, _) => .ok a
  | .error e => .error e

/-- The `?` operator on a decode result inside `handle_packet`. -/
def decAndThen (x : Except DecodeError α) (f : α → HandleOut) :
    Except DecodeError HandleOut :=
  match x with
  | .ok a => .ok (f a)
  | .error e => .error e

/-- `GameClient::handle_packet`, arm for arm from the source.  `chOpen`
models whether the application still holds the receiving end of the
server-message channel. -/
def handle_packet (chOpen : Bool) (p : Packet) :
    Except DecodeError HandleOut :=
  match serverPacketsFromU16 p.command with
  | some .ConnectReply =>
    decAndThen (tryFrom rdConnectionReply p) fun response =>
      let message : Except ConnectionRequestError ConnectionResponse :=
        match response.result with
        | .Ok => .ok { packet_sequence_id := response.packet_sequence_id }
        | _ => .error .Failed
      sendDiscardOne chOpen (.ConnectionResponse message)
  | some .SelectCharacter =>
    decAndThen (tryFrom rdSelectCharacter p) fun response =>
      sendDiscardOne chOpen (.CharacterData {
        character_info := response.character_info,
        position := response.position,
        basic_stats := response.basic_stats,
        level := response.level,
        equipment := response.equipment,
        experience_points := response.experience_points,
        skill_list := response.skill_list,
        hotbar := response.hotbar,
        health_points := response.health_points,
        mana_points := response.mana_points,
        stat_points := response.stat_points,
        skill_points := response.skill_points,
        union_membership := response.union_membership,
        stamina := response.stamina })
  | some .CharacterInventory =>
    decAndThen (tryFrom rdCharacterInventory p) fun response =>
      sendDiscardOne chOpen (.CharacterDataItems {
        inventory := response.inventory,
        equipment := response.equipment })
  | some .QuestData =>
    decAndThen (tryFrom rdCharacterQuestData p) fun response =>
      sendDiscardOne chOpen (.CharacterDataQuest {
        quest_state := response.quest_state })
  | some .JoinZone =>
    decAndThen (tryFrom rdJoinZone p) fun response =>
      sendDiscardOne chOpen (.JoinZone {
        entity_id := response.entity_id,
        experience_points := response.experience_points,
        team := response.team,
        health_points := response.health_points,
        mana_points := response.mana_points,
        world_ticks := response.world_ticks })
  | some .MoveEntity | some .MoveEntityWithMoveMode =>
    decAndThen (tryFrom rdMoveEntity p) fun response =>
      sendDiscardOne chOpen (.MoveEntity {
        entity_id := response.entity_id,
        target_entity_id := response.target_entity_id,
        distance := response.distance,
        x := response.x,
        y := response.y,
        z := response.z,
        move_mode := response.move_mode })
  | some .SpawnEntityNpc =>
    decAndThen (tryFrom rdSpawnEntityNpc p) fun message =>
      sendDiscardOne chOpen (.SpawnEntityNpc {
        entity_id := message.entity_id,
        npc := message.npc,
        direction := message.direction,
        position := message.position,
        team := message.team,
        health := message.health,
        destination := message.destination,
        command := message.command,
        target_entity_id := message.target_entity_id,
        move_mode := message.move_mode,
        status_effects := message.status_effects })
  | some .SpawnEntityMonster =>
    decAndThen (tryFrom rdSpawnEntityMonster p) fun message =>
      sendDiscardOne chOpen (.SpawnEntityMonster {
        entity_id := message.entity_id,
        npc := message.npc,
        position := message.position,
        team := message.team,
        health := message.health,
        destination := message.destination,
        command := message.command,
        target_entity_id := message.target_entity_id,
        move_mode := message.move_mode,
        status_effects := message.status_effects })
  | some .RemoveEntities =>
    decAndThen (tryFrom rdRemoveEntities p) fun message =>
      sendDiscardOne chOpen (.RemoveEntities {
        entity_ids := message.entity_ids })
  | some .Teleport =>
    decAndThen (tryFrom rdTeleport p) fun message =>
      sendDiscardOne chOpen (.Teleport {
        entity_id := message.entity_id,
        zone_id := message.zone_id,
        x := message.x,
        y := message.y,
        run_mode := message.run_mode,
        ride_mode := message.ride_mode })
  | some .LocalChat =>
    decAndThen (tryFrom rdLocalChat p) fun message =>
      sendDiscardOne chOpen (.LocalChat {
        entity_id := message.entity_id,
        text := message.text })
  | some .ShoutChat =>
    decAndThen (tryFrom rdShoutChat p) fun message =>
      sendDiscardOne chOpen (.ShoutChat {
        name := message.name,
        text := message.text })
  | some .AnnounceChat =>
    decAndThen (tryFrom rdAnnounceChat p) fun message =>
      sendDiscardOne chOpen (.AnnounceChat {
        name := message.name,
        text := message.text })
  | some .Whisper =>
    decAndThen (tryFrom rdWhisper p) fun message =>
      sendDiscardOne chOpen (.Whisper {
        from_ := message.from_,
        text := message.text })
  | some .UpdateSpeed =>
    decAndThen (tryFrom rdUpdateSpeed p) fun message =>
      sendDiscardOne chOpen (.UpdateSpeed {
        entity_id := message.entity_id,
        run_speed := message.run_speed,
        passive_attack_speed := message.passive_attack_speed })
  | none => .ok { sent := [], logged := [p.command] }

/-! ## Outgoing messages (`GameClient::handle_client_message`) -/

structure ConnectionRequest where
  login_token : Nat
  password_md5 : List Nat
deriving Repr, DecidableEq

structure Move where
  target_entity_id : Option Nat
  x : Nat
  y : Nat
  z : Nat
deriving Repr, DecidableEq

/-- Modelled from the spec: the full `ClientMessage` union lives in
`rose_game_common` (spec: "connect request, move, chat, ... etc."); the
model keeps the four variants this client encodes plus one representative
further variant, which reaches the dispatcher's `unimplemented` arm. -/
inductive ClientMessage where
  | ConnectionRequest (r : ConnectionRequest)
  | JoinZoneRequest
  | Move (m : Move)
  | Chat (text : List Nat)
  | LogoutRequest
deriving Repr, DecidableEq

structure PacketClientConnectRequest where
  login_token : Nat
  password_md5 : List Nat
deriving Repr, DecidableEq

structure PacketClientJoinZone where
  weight_rate : Nat
  z : Nat
deriving Repr, DecidableEq

structure PacketClientMove where
  target_entity_id : Option Nat
  x : Nat
  y : Nat
  z : Nat
deriving Repr, DecidableEq

structure PacketClientChat where
  text : List Nat
deriving Repr, DecidableEq

inductive ClientPackets where
  | ConnectRequest
  | JoinZone
  | Move
  | Chat
deriving Repr, DecidableEq

/-- Modelled from the spec: client opcode values, defined in
`rose_network_irose`; distinct 16-bit values. -/
def ClientPackets.toU16 : ClientPackets → Nat
  | .ConnectRequest => 101
  | .JoinZone => 102
  | .Move => 103
  | .Chat => 104

/-- `Packet::from(&PacketClientConnectRequest { .. })`.  Modelled from the
spec: payload is the field-by-field encoding. -/
def packetFromConnectRequest (w : PacketClientConnectRequest) : Packet :=
  { command := ClientPackets.ConnectRequest.toU16,
    data := wrN 4 w.login_token ++ wrStr w.password_md5 }

def packetFromJoinZone (w : PacketClientJoinZone) : Packet :=
  { command := ClientPackets.JoinZone.toU16,
    data := wrN 1 w.weight_rate ++ wrN 2 w.z }

def packetFromMove (w : PacketClientMove) : Packet :=
  { command := ClientPackets.Move.toU16,
    data := wrOptWith (wrN 2) w.target_entity_id ++ wrN 4 w.x ++ wrN 4 w.y ++
      wrN 2 w.z }

def packetFromChat (w : PacketClientChat) : Packet :=
  { command := ClientPackets.Chat.toU16, data := wrStr w.text }

inductive TransportError where
  | socket (code : Nat)
deriving Repr, DecidableEq

/-- `connection.write_packet(p).await`: `wres` is whether the socket write
succeeds at this point of the session. -/
def write_packet (wres : Except TransportError Unit) (p : Packet) :
    Except TransportError Packet :=
  match wres with
  | .ok _ => .ok p
  | .error e => .error e

/-- What one `handle_client_message` call did: the packets written to the
connection, and the messages printed as unimplemented. -/
structure WriteOut where
  written : List Packet
  logged : List ClientMessage
deriving Repr, DecidableEq

/-- The `?` operator on a `write_packet` result. -/
def wrAndThen (x : Except TransportError Packet) :
    Except TransportError WriteOut :=
  match x with
  | .ok p => .ok { written := [p], logged := [] }
  | .error e => .error e

/-- `GameClient::handle_client_message`, arm for arm from the source. -/
def handle_client_message (wres : Except TransportError Unit)
    (message : ClientMessage) : Except TransportError WriteOut :=
  match message with
  | .ConnectionRequest r =>
    wrAndThen (write_packet wres (packetFromConnectRequest
      { login_token := r.login_token, password_md5 := r.password_md5 }))
  | .JoinZoneRequest =>
    wrAndThen (write_packet wres (packetFromJoinZone
      { weight_rate := 0, z := 0 }))
  | .Move m =>
    wrAndThen (write_packet wres (packetFromMove
      { target_entity_id := m.target_entity_id, x := m.x, y := m.y,
        z := m.z }))
  | .Chat text =>
    wrAndThen (write_packet wres (packetFromChat { text }))
  | unimplemented => .ok { written := [], logged := [unimplemented] }

/-! ## The session loop (`GameClient::run_connection`) -/

/-- The distinguished error enum of the source (`GameClientError`). -/
inductive GameClientError where
  | ClientInitiatedDisconnect
deriving Repr, DecidableEq

/-- Why `run_connection` returned: one of the `anyhow::Error` values the
source can produce. -/
inductive SessionEnd where
  | transport (e : TransportError)
  | decode (e : DecodeError)
  | gameClient (e : GameClientError)
deriving Repr, DecidableEq

/-- One firing of the `tokio::select!`: either `connection.read_packet()`
finished (with a packet or a transport error), or
`client_message_rx.recv()` finished (with a message, or `None` when the
outbound queue was closed).  For a message arrival, `wres` is the outcome
the socket would give the resulting write. -/
inductive SelectEvent where
  | packetArrives (r : Except TransportError Packet)
  | clientMessageArrives (wres : Except TransportError Unit)
      (r : Option ClientMessage)
deriving Repr, DecidableEq

structure LoopOut where
  sent : List ServerMessage
  written : List Packet
  stop : Option SessionEnd
deriving Repr, DecidableEq

/-- The `loop { tokio::select! { .. } }` of `run_connection`, run over a
trace of select firings.  `stop = none` means the loop is still running
when the trace ends; `stop = some r` means it returned `Err(r)` and
processed nothing further.  The loop has no `Ok` exit. -/
def run_loop (chOpen : Bool) : List SelectEvent → LoopOut
  | [] => { sent := [], written := [], stop := none }
  | .packetArrives (.error e) :: _ =>
    { sent := [], written := [], stop := some (.transport e) }
  | .packetArrives (.ok p) :: rest =>
    match handle_packet chOpen p with
    | .error e => { sent := [], written := [], stop := some (.decode e) }
    | .ok out =>
      let r := run_loop chOpen rest
      { sent := out.sent ++ r.sent, written := r.written, stop := r.stop }
  | .clientMessageArrives wres (some message) :: rest =>
    match handle_client_message wres message with
    | .error e => { sent := [], written := [], stop := some (.transport e) }
    | .ok out =>
      let r := run_loop chOpen rest
      { sent := r.sent, written := out.written ++ r.written, stop := r.stop }
  | .clientMessageArrives _ none :: _ =>
    { sent := [], written := [],
      stop := some (.gameClient .ClientInitiatedDisconnect) }

structure RunOut where
  connectCalls : Nat
  result : LoopOut
deriving Repr, DecidableEq

/-- `GameClient::run_connection`: one `TcpStream::connect` (whose outcome is
`connectResult`), then the select loop; a connect failure propagates through
`?` before the loop starts. -/
def run_connection (connectResult : Except TransportError Unit)
    (chOpen : Bool) (events : List SelectEvent) : RunOut :=
  match connectResult with
  | .error e =>
    { connectCalls := 1,
      result := { sent := [], written := [], stop := some (.transport e) } }
  | .ok _ => { connectCalls := 1, result := run_loop chOpen events }

/-! ## The client entity table (`resources/client_entity_list.rs`) -/

/-- `bevy::prelude::Entity` is opaque to this repository; modelled as an
identifier. -/
abbrev Entity := Nat

structure ClientEntityList where
  client_entities : List (Option Entity)
  player_entity : Option Entity
  player_entity_id : Option Nat
  zone_id : Option Nat
deriving Repr, DecidableEq

/-- `Default::default()`: 4096 empty slots. -/
def ClientEntityList.defaultList : ClientEntityList :=
  { client_entities := List.replicate 4096 none,
    player_entity := none, player_entity_id := none, zone_id := none }

/-- `self.client_entities[id.0 as usize] = Some(entity)`.  Rust `Vec`
indexing panics when `id.0` is out of bounds; a panicking call is `none`. -/
def ClientEntityList.add (l : ClientEntityList) (id : Nat) (entity : Entity) :
    Option ClientEntityList :=
  if id < l.client_entities.length then
    some { l with client_entities := l.client_entities.set id (some entity) }
  else none

def ClientEntityList.remove (l : ClientEntityList) (id : Nat) :
    Option ClientEntityList :=
  if id < l.client_entities.length then
    some { l with client_entities := l.client_entities.set id none }
  else none

/-- `self.client_entities.fill(None)`. -/
def ClientEntityList.clear (l : ClientEntityList) : ClientEntityList :=
  { l with client_entities :=
      List.replicate l.client_entities.length none }

/-- `self.client_entities[id.0 as usize]`; outer `none` is the panic. -/
def ClientEntityList.get (l : ClientEntityList) (id : Nat) :
    Option (Option Entity) :=
  l.client_entities[id]?

/-! ## Decoded wire values and the dispatch translation -/

theorem tryFrom_enc {α : Type} {rd : Rd α} {wrv : List Nat} {v : α}
    (hd : ∀ rest, rd (wrv ++ rest) = .ok (v, rest)) (c : Nat) :
    tryFrom rd { command := c, data := wrv } = .ok v := by
  unfold tryFrom
  have h0 := hd []
  rw [List.append_nil] at h0
  rw [h0]

theorem tryFrom_err {α : Type} {rd : Rd α} {bs : List Nat} {e : DecodeError}
    (h : rd bs = .error e) (c : Nat) :
    tryFrom rd { command := c, data := bs } = .error e := by
  unfold tryFrom
  rw [h]

/-- A successfully decoded server wire struct, tagged with the opcode it
arrived under (`MoveEntity` and `MoveEntityWithMoveMode` carry the same
struct). -/
inductive WireServer where
  | connectReply (w : PacketConnectionReply)
  | selectCharacter (w : PacketServerSelectCharacter)
  | characterInventory (w : PacketServerCharacterInventory)
  | questData (w : PacketServerCharacterQuestData)
  | joinZone (w : PacketServerJoinZone)
  | moveEntity (w : PacketServerMoveEntity)
  | moveEntityWithMoveMode (w : PacketServerMoveEntity)
  | spawnEntityNpc (w : PacketServerSpawnEntityNpc)
  | spawnEntityMonster (w : PacketServerSpawnEntityMonster)
  | removeEntities (w : PacketServerRemoveEntities)
  | teleport (w : PacketServerTeleport)
  | localChat (w : PacketServerLocalChat)
  | shoutChat (w : PacketServerShoutChat)
  | announceChat (w : PacketServerAnnounceChat)
  | whisper (w : PacketServerWhisper)
  | updateSpeed (w : PacketServerUpdateSpeed)
deriving Repr, DecidableEq

def WireServer.opcode : WireServer → ServerPackets
  | .connectReply _ => .ConnectReply
  | .selectCharacter _ => .SelectCharacter
  | .characterInventory _ => .CharacterInventory
  | .questData _ => .QuestData
  | .joinZone _ => .JoinZone
  | .moveEntity _ => .MoveEntity
  | .moveEntityWithMoveMode _ => .MoveEntityWithMoveMode
  | .spawnEntityNpc _ => .SpawnEntityNpc
  | .spawnEntityMonster _ => .SpawnEntityMonster
  | .removeEntities _ => .RemoveEntities
  | .teleport _ => .Teleport
  | .localChat _ => .LocalChat
  | .shoutChat _ => .ShoutChat
  | .announceChat _ => .AnnounceChat
  | .whisper _ => .Whisper
  | .updateSpeed _ => .UpdateSpeed

def WireServer.payload : WireServer → List Nat
  | .connectReply w => wrConnectionReply w
  | .selectCharacter w => wrSelectCharacter w
  | .characterInventory w => wrCharacterInventory w
  | .questData w => wrCharacterQuestData w
  | .joinZone w => wrJoinZone w
  | .moveEntity w => wrMoveEntity w
  | .moveEntityWithMoveMode w => wrMoveEntity w
  | .spawnEntityNpc w => wrSpawnEntityNpc w
  | .spawnEntityMonster w => wrSpawnEntityMonster w
  | .removeEntities w => wrRemoveEntities w
  | .teleport w => wrTeleport w
  | .localChat w => wrLocalChat w
  | .shoutChat w => wrShoutChat w
  | .announceChat w => wrAnnounceChat w
  | .whisper w => wrWhisper w
  | .updateSpeed w => wrUpdateSpeed w

/-- The packet a server would send to carry this wire value. -/
def WireServer.toPacket (w : WireServer) : Packet :=
  { command := w.opcode.toU16, data := w.payload }

def WireServer.Valid : WireServer → Prop
  | .connectReply w => w.Valid
  | .selectCharacter w => w.Valid
  | .characterInventory w => w.Valid
  | .questData w => w.Valid
  | .joinZone w => w.Valid
  | .moveEntity w => w.Valid
  | .moveEntityWithMoveMode w => w.Valid
  | .spawnEntityNpc w => w.Valid
  | .spawnEntityMonster w => w.Valid
  | .removeEntities w => w.Valid
  | .teleport w => w.Valid
  | .localChat w => w.Valid
  | .shoutChat w => w.Valid
  | .announceChat w => w.Valid
  | .whisper w => w.Valid
  | .updateSpeed w => w.Valid

instance (w : PacketConnectionReply) : Decidable w.Valid := by
  unfold PacketConnectionReply.Valid
  infer_instance

instance (w : PacketServerSelectCharacter) : Decidable w.Valid := by
  unfold PacketServerSelectCharacter.Valid
  infer_instance

instance (w : PacketServerCharacterInventory) : Decidable w.Valid := by
  unfold PacketServerCharacterInventory.Valid
  infer_instance

instance (w : PacketServerCharacterQuestData) : Decidable w.Valid := by
  unfold PacketServerCharacterQuestData.Valid
  infer_instance

instance (w : PacketServerJoinZone) : Decidable w.Valid := by
  unfold PacketServerJoinZone.Valid
  infer_instance

instance (w : PacketServerMoveEntity) : Decidable w.Valid := by
  unfold PacketServerMoveEntity.Valid
  infer_instance

instance (w : PacketServerSpawnEntityNpc) : Decidable w.Valid := by
  unfold PacketServerSpawnEntityNpc.Valid
  infer_instance

instance (w : PacketServerSpawnEntityMonster) : Decidable w.Valid := by
  unfold PacketServerSpawnEntityMonster.Valid
  infer_instance

instance (w : PacketServerRemoveEntities) : Decidable w.Valid := by
  unfold PacketServerRemoveEntities.Valid
  infer_instance

instance (w : PacketServerTeleport) : Decidable w.Valid := by
  unfold PacketServerTeleport.Valid
  infer_instance

instance (w : PacketServerLocalChat) : Decidable w.Valid := by
  unfold PacketServerLocalChat.Valid
  infer_instance

instance (w : PacketServerShoutChat) : Decidable w.Valid := by
  unfold PacketServerShoutChat.Valid
  infer_instance

instance (w : PacketServerAnnounceChat) : Decidable w.Valid := by
  unfold PacketServerAnnounceChat.Valid
  infer_instance

instance (w : PacketServerWhisper) : Decidable w.Valid := by
  unfold PacketServerWhisper.Valid
  infer_instance

instance (w : PacketServerUpdateSpeed) : Decidable w.Valid := by
  unfold PacketServerUpdateSpeed.Valid
  infer_instance

instance (w : WireServer) : Decidable w.Valid := by
  cases w <;> (unfold WireServer.Valid; infer_instance)

/-- The translation the amended C1 states: the `ServerMessage` variant
corresponding to the opcode, every field copied from the decoded wire
struct — except `ConnectReply`, whose wire `result` is collapsed to
`Ok(sequence id)` on success and to `Err(Failed)` (dropping the sequence
id) otherwise.  Written from the claim's words, to be compared with
`handle_packet`. -/
def expectedServerMessage : WireServer → ServerMessage
  | .connectReply w =>
    .ConnectionResponse (match w.result with
      | .Ok => .ok { packet_sequence_id := w.packet_sequence_id }
      | .Failed => .error .Failed)
  | .selectCharacter w =>
    .CharacterData {
      character_info := w.character_info,
      position := w.position,
      basic_stats := w.basic_stats,
      level := w.level,
      equipment := w.equipment,
      experience_points := w.experience_points,
      skill_list := w.skill_list,
      hotbar := w.hotbar,
      health_points := w.health_points,
      mana_points := w.mana_points,
      stat_points := w.stat_points,
      skill_points := w.skill_points,
      union_membership := w.union_membership,
      stamina := w.stamina }
  | .characterInventory w =>
    .CharacterDataItems { inventory := w.inventory, equipment := w.equipment }
  | .questData w =>
    .CharacterDataQuest { quest_state := w.quest_state }
  | .joinZone w =>
    .JoinZone {
      entity_id := w.entity_id,
      experience_points := w.experience_points,
      team := w.team,
      health_points := w.health_points,
      mana_points := w.mana_points,
      world_ticks := w.world_ticks }
  | .moveEntity w =>
    .MoveEntity {
      entity_id := w.entity_id,
      target_entity_id := w.target_entity_id,
      distance := w.distance,
      x := w.x,
      y := w.y,
      z := w.z,
      move_mode := w.move_mode }
  | .moveEntityWithMoveMode w =>
    .MoveEntity {
      entity_id := w.entity_id,
      target_entity_id := w.target_entity_id,
      distance := w.distance,
      x := w.x,
      y := w.y,
      z := w.z,
      move_mode := w.move_mode }
  | .spawnEntityNpc w =>
    .SpawnEntityNpc {
      entity_id := w.entity_id,
      npc := w.npc,
      direction := w.direction,
      position := w.position,
      team := w.team,
      health := w.health,
      destination := w.destination,
      command := w.command,
      target_entity_id := w.target_entity_id,
      move_mode := w.move_mode,
      status_effects := w.status_effects }
  | .spawnEntityMonster w =>
    .SpawnEntityMonster {
      entity_id := w.entity_id,
      npc := w.npc,
      position := w.position,
      team := w.team,
      health := w.health,
      destination := w.destination,
      command := w.command,
      target_entity_id := w.target_entity_id,
      move_mode := w.move_mode,
      status_effects := w.status_effects }
  | .removeEntities w =>
    .RemoveEntities { entity_ids := w.entity_ids }
  | .teleport w =>
    .Teleport {
      entity_id := w.entity_id,
      zone_id := w.zone_id,
      x := w.x,
      y := w.y,
      run_mode := w.run_mode,
      ride_mode := w.ride_mode }
  | .localChat w =>
    .LocalChat { entity_id := w.entity_id, text := w.text }
  | .shoutChat w =>
    .ShoutChat { name := w.name, text := w.text }
  | .announceChat w =>
    .AnnounceChat { name := w.name, text := w.text }
  | .whisper w =>
    .Whisper { from_ := w.from_, text := w.text }
  | .updateSpeed w =>
    .UpdateSpeed {
      entity_id := w.entity_id,
      run_speed := w.run_speed,
      passive_attack_speed := w.passive_attack_speed }

/-- C1 fails as stated: two `ConnectReply` packets that decode successfully
to wire structs differing in `packet_sequence_id` (5 vs 7, both with a
non-Ok result) make `handle_packet` send the identical `ServerMessage`
`ConnectionResponse (Err Failed)` — the sent fields are not the fields of
the decoded wire struct, which are dropped. -/
theorem c1_counterexample :
    tryFrom rdConnectionReply {
      command := 1,
      data := wrConnectionReply { result := .Failed, packet_sequence_id := 5 } } =
      .ok { result := .Failed, packet_sequence_id := 5 } ∧
    tryFrom rdConnectionReply {
      command := 1,
      data := wrConnectionReply { result := .Failed, packet_sequence_id := 7 } } =
      .ok { result := .Failed, packet_sequence_id := 7 } ∧
    ({ result := .Failed, packet_sequence_id := 5 } : PacketConnectionReply) ≠
      { result := .Failed, packet_sequence_id := 7 } ∧
    handle_packet true {
      command := 1,
      data := wrConnectionReply { result := .Failed, packet_sequence_id := 5 } } =
      handle_packet true {
        command := 1,
        data := wrConnectionReply { result := .Failed, packet_sequence_id := 7 } } :=
  ⟨rfl, rfl, by decide, rfl⟩

/-- C1 (amended): for every inbound packet whose opcode is recognized and
whose payload decodes, `handle_packet` passes exactly one `ServerMessage`
of the corresponding variant to the channel, with fields equal to the
fields of the decoded wire struct — except `ConnectReply`, where a wire
result of Ok maps to `Ok(packet_sequence_id)` and any other wire result
maps to `Err(Failed)`, discarding the sequence id. -/
theorem c1_amended_dispatch_translation (chOpen : Bool) (w : WireServer)
    (h : w.Valid) :
    handle_packet chOpen { command := w.opcode.toU16, data := w.payload } =
      .ok { sent := [expectedServerMessage w], logged := [] } := by
  cases w with
  | connectReply v =>
    have ht : tryFrom rdConnectionReply { command := 1, data := wrConnectionReply v } = .ok v :=
      tryFrom_enc (rdConnectionReply_enc v h) 1
    obtain ⟨res, seq⟩ := v
    cases res <;>
      simp only [WireServer.opcode, WireServer.payload, ServerPackets.toU16,
        expectedServerMessage, handle_packet, serverPacketsFromU16, ht, decAndThen,
        sendDiscardOne, channelSend, Except.toOption]
  | selectCharacter v =>
    have ht : tryFrom rdSelectCharacter { command := 2, data := wrSelectCharacter v } = .ok v :=
      tryFrom_enc (rdSelectCharacter_enc v h) 2
    simp only [WireServer.opcode, WireServer.payload, ServerPackets.toU16,
      expectedServerMessage, handle_packet, serverPacketsFromU16, ht, decAndThen,
      sendDiscardOne, channelSend, Except.toOption]
  | characterInventory v =>
    have ht : tryFrom rdCharacterInventory { command := 3, data := wrCharacterInventory v } = .ok v :=
      tryFrom_enc (rdCharacterInventory_enc v h) 3
    simp only [WireServer.opcode, WireServer.payload, ServerPackets.toU16,
      expectedServerMessage, handle_packet, serverPacketsFromU16, ht, decAndThen,
      sendDiscardOne, channelSend, Except.toOption]
  | questData v =>
    have ht : tryFrom rdCharacterQuestData { command := 4, data := wrCharacterQuestData v } = .ok v :=
      tryFrom_enc (rdCharacterQuestData_enc v h) 4
    simp only [WireServer.opcode, WireServer.payload, ServerPackets.toU16,
      expectedServerMessage, handle_packet, serverPacketsFromU16, ht, decAndThen,
      sendDiscardOne, channelSend, Except.toOption]
  | joinZone v =>
    have ht : tryFrom rdJoinZone { command := 5, data := wrJoinZone v } = .ok v :=
      tryFrom_enc (rdJoinZone_enc v h) 5
    simp only [WireServer.opcode, WireServer.payload, ServerPackets.toU16,
      expectedServerMessage, handle_packet, serverPacketsFromU16, ht, decAndThen,
      sendDiscardOne, channelSend, Except.toOption]
  | moveEntity v =>
    have ht : tryFrom rdMoveEntity { command := 6, data := wrMoveEntity v } = .ok v :=
      tryFrom_enc (rdMoveEntity_enc v h) 6
    simp only [WireServer.opcode, WireServer.payload, ServerPackets.toU16,
      expectedServerMessage, handle_packet, serverPacketsFromU16, ht, decAndThen,
      sendDiscardOne, channelSend, Except.toOption]
  | moveEntityWithMoveMode v =>
    have ht : tryFrom rdMoveEntity { command := 7, data := wrMoveEntity v } = .ok v :=
      tryFrom_enc (rdMoveEntity_enc v h) 7
    simp only [WireServer.opcode, WireServer.payload, ServerPackets.toU16,
      expectedServerMessage, handle_packet, serverPacketsFromU16, ht, decAndThen,
      sendDiscardOne, channelSend, Except.toOption]
  | spawnEntityNpc v =>
    have ht : tryFrom rdSpawnEntityNpc { command := 8, data := wrSpawnEntityNpc v } = .ok v :=
      tryFrom_enc (rdSpawnEntityNpc_enc v h) 8
    simp only [WireServer.opcode, WireServer.payload, ServerPackets.toU16,
      expectedServerMessage, handle_packet, serverPacketsFromU16, ht, decAndThen,
      sendDiscardOne, channelSend, Except.toOption]
  | spawnEntityMonster v =>
    have ht : tryFrom rdSpawnEntityMonster { command := 9, data := wrSpawnEntityMonster v } = .ok v :=
      tryFrom_enc (rdSpawnEntityMonster_enc v h) 9
    simp only [WireServer.opcode, WireServer.payload, ServerPackets.toU16,
      expectedServerMessage, handle_packet, serverPacketsFromU16, ht, decAndThen,
      sendDiscardOne, channelSend, Except.toOption]
  | removeEntities v =>
    have ht : tryFrom rdRemoveEntities { command := 10, data := wrRemoveEntities v } = .ok v :=
      tryFrom_enc (rdRemoveEntities_enc v h) 10
    simp only [WireServer.opcode, WireServer.payload, ServerPackets.toU16,
      expectedServerMessage, handle_packet, serverPacketsFromU16, ht, decAndThen,
      sendDiscardOne, channelSend, Except.toOption]
  | teleport v =>
    have ht : tryFrom rdTeleport { command := 11, data := wrTeleport v } = .ok v :=
      tryFrom_enc (rdTeleport_enc v h) 11
    simp only [WireServer.opcode, WireServer.payload, ServerPackets.toU16,
      expectedServerMessage, handle_packet, serverPacketsFromU16, ht, decAndThen,
      sendDiscardOne, channelSend, Except.toOption]
  | localChat v =>
    have ht : tryFrom rdLocalChat { command := 12, data := wrLocalChat v } = .ok v :=
      tryFrom_enc (rdLocalChat_enc v h) 12
    simp only [WireServer.opcode, WireServer.payload, ServerPackets.toU16,
      expectedServerMessage, handle_packet, serverPacketsFromU16, ht, decAndThen,
      sendDiscardOne, channelSend, Except.toOption]
  | shoutChat v =>
    have ht : tryFrom rdShoutChat { command := 13, data := wrShoutChat v } = .ok v :=
      tryFrom_enc (rdShoutChat_enc v h) 13
    simp only [WireServer.opcode, WireServer.payload, ServerPackets.toU16,
      expectedServerMessage, handle_packet, serverPacketsFromU16, ht, decAndThen,
      sendDiscardOne, channelSend, Except.toOption]
  | announceChat v =>
    have ht : tryFrom rdAnnounceChat { command := 14, data := wrAnnounceChat v } = .ok v :=
      tryFrom_enc (rdAnnounceChat_enc v h) 14
    simp only [WireServer.opcode, WireServer.payload, ServerPackets.toU16,
      expectedServerMessage, handle_packet, serverPacketsFromU16, ht, decAndThen,
      sendDiscardOne, channelSend, Except.toOption]
  | whisper v =>
    have ht : tryFrom rdWhisper { command := 15, data := wrWhisper v } = .ok v :=
      tryFrom_enc (rdWhisper_enc v h) 15
    simp only [WireServer.opcode, WireServer.payload, ServerPackets.toU16,
      expectedServerMessage, handle_packet, serverPacketsFromU16, ht, decAndThen,
      sendDiscardOne, channelSend, Except.toOption]
  | updateSpeed v =>
    have ht : tryFrom rdUpdateSpeed { command := 16, data := wrUpdateSpeed v } = .ok v :=
      tryFrom_enc (rdUpdateSpeed_enc v h) 16
    simp only [WireServer.opcode, WireServer.payload, ServerPackets.toU16,
      expectedServerMessage, handle_packet, serverPacketsFromU16, ht, decAndThen,
      sendDiscardOne, channelSend, Except.toOption]

/-- C1 witness: a concrete valid `UpdateSpeed` wire value, dispatched. -/
theorem c1_witness :
    (WireServer.updateSpeed {
      entity_id := 3,
      run_speed := 200,
      passive_attack_speed := 77 }).Valid ∧
    handle_packet true {
      command := 16,
      data := wrUpdateSpeed {
        entity_id := 3,
        run_speed := 200,
        passive_attack_speed := 77 } } =
      .ok {
        sent := [.UpdateSpeed {
          entity_id := 3,
          run_speed := 200,
          passive_attack_speed := 77 }],
        logged := [] } :=
  ⟨by decide, c1_amended_dispatch_translation true
    (.updateSpeed { entity_id := 3, run_speed := 200, passive_attack_speed := 77 })
    (by decide)⟩

/-- Decoding a strict prefix of an encoded wire value fails: combination of
the encoder/decoder agreement with `Stops`. -/
theorem handle_arm_trunc {α : Type} {rd : Rd α} {wrv : List Nat} {v : α}
    (henc : ∀ rest, rd (wrv ++ rest) = .ok (v, rest)) (hst : Stops rd)
    {k : Nat} (hk : k < wrv.length) : ∃ e, rd (wrv.take k) = .error e := by
  have hok : rd wrv = .ok (v, []) := by
    have h0 := henc []
    rwa [List.append_nil] at h0
  obtain ⟨pre, hpre, hext, htr⟩ := hst _ _ _ hok
  have hpe : pre = wrv := by
    have h1 := hpre.symm
    rwa [List.append_nil] at h1
  subst hpe
  exact htr k hk

/-- C8 fails as stated: the inbound packet with (unrecognized) opcode 999
and payload `[1, 2, 3]`, truncated at byte offset 2, is logged and dropped
with `Ok` — processing it yields no decode or IO error. -/
theorem c8_counterexample :
    serverPacketsFromU16 999 = none ∧
    handle_packet true { command := 999, data := List.take 2 [1, 2, 3] } =
      .ok { sent := [], logged := [999] } :=
  ⟨rfl, rfl⟩

/-- C8 (amended): for every inbound packet whose opcode is recognized,
truncating the payload at any byte offset makes `handle_packet` return a
decode error — never a success and never a corrupted message (the model is
total, so no panic is possible). -/
theorem c8_amended_truncation_error (w : WireServer) (h : w.Valid) (k : Nat)
    (hk : k < w.payload.length) :
    ∃ e, handle_packet true {
      command := w.opcode.toU16,
      data := w.payload.take k } = .error e := by
  cases w with
  | connectReply v =>
    obtain ⟨e, he⟩ := handle_arm_trunc (rdConnectionReply_enc v h) stops_rdConnectionReply hk
    exact ⟨e, by simp only [WireServer.opcode, WireServer.payload, ServerPackets.toU16,
      handle_packet, serverPacketsFromU16, tryFrom_err he 1, decAndThen]⟩
  | selectCharacter v =>
    obtain ⟨e, he⟩ := handle_arm_trunc (rdSelectCharacter_enc v h) stops_rdSelectCharacter hk
    exact ⟨e, by simp only [WireServer.opcode, WireServer.payload, ServerPackets.toU16,
      handle_packet, serverPacketsFromU16, tryFrom_err he 2, decAndThen]⟩
  | characterInventory v =>
    obtain ⟨e, he⟩ := handle_arm_trunc (rdCharacterInventory_enc v h) stops_rdCharacterInventory hk
    exact ⟨e, by simp only [WireServer.opcode, WireServer.payload, ServerPackets.toU16,
      handle_packet, serverPacketsFromU16, tryFrom_err he 3, decAndThen]⟩
  | questData v =>
    obtain ⟨e, he⟩ := handle_arm_trunc (rdCharacterQuestData_enc v h) stops_rdCharacterQuestData hk
    exact ⟨e, by simp only [WireServer.opcode, WireServer.payload, ServerPackets.toU16,
      handle_packet, serverPacketsFromU16, tryFrom_err he 4, decAndThen]⟩
  | joinZone v =>
    obtain ⟨e, he⟩ := handle_arm_trunc (rdJoinZone_enc v h) stops_rdJoinZone hk
    exact ⟨e, by simp only [WireServer.opcode, WireServer.payload, ServerPackets.toU16,
      handle_packet, serverPacketsFromU16, tryFrom_err he 5, decAndThen]⟩
  | moveEntity v =>
    obtain ⟨e, he⟩ := handle_arm_trunc (rdMoveEntity_enc v h) stops_rdMoveEntity hk
    exact ⟨e, by simp only [WireServer.opcode, WireServer.payload, ServerPackets.toU16,
      handle_packet, serverPacketsFromU16, tryFrom_err he 6, decAndThen]⟩
  | moveEntityWithMoveMode v =>
    obtain ⟨e, he⟩ := handle_arm_trunc (rdMoveEntity_enc v h) stops_rdMoveEntity hk
    exact ⟨e, by simp only [WireServer.opcode, WireServer.payload, ServerPackets.toU16,
      handle_packet, serverPacketsFromU16, tryFrom_err he 7, decAndThen]⟩
  | spawnEntityNpc v =>
    obtain ⟨e, he⟩ := handle_arm_trunc (rdSpawnEntityNpc_enc v h) stops_rdSpawnEntityNpc hk
    exact ⟨e, by simp only [WireServer.opcode, WireServer.payload, ServerPackets.toU16,
      handle_packet, serverPacketsFromU16, tryFrom_err he 8, decAndThen]⟩
  | spawnEntityMonster v =>
    obtain ⟨e, he⟩ := handle_arm_trunc (rdSpawnEntityMonster_enc v h) stops_rdSpawnEntityMonster hk
    exact ⟨e, by simp only [WireServer.opcode, WireServer.payload, ServerPackets.toU16,
      handle_packet, serverPacketsFromU16, tryFrom_err he 9, decAndThen]⟩
  | removeEntities v =>
    obtain ⟨e, he⟩ := handle_arm_trunc (rdRemoveEntities_enc v h) stops_rdRemoveEntities hk
    exact ⟨e, by simp only [WireServer.opcode, WireServer.payload, ServerPackets.toU16,
      handle_packet, serverPacketsFromU16, tryFrom_err he 10, decAndThen]⟩
  | teleport v =>
    obtain ⟨e, he⟩ := handle_arm_trunc (rdTeleport_enc v h) stops_rdTeleport hk
    exact ⟨e, by simp only [WireServer.opcode, WireServer.payload, ServerPackets.toU16,
      handle_packet, serverPacketsFromU16, tryFrom_err he 11, decAndThen]⟩
  | localChat v =>
    obtain ⟨e, he⟩ := handle_arm_trunc (rdLocalChat_enc v h) stops_rdLocalChat hk
    exact ⟨e, by simp only [WireServer.opcode, WireServer.payload, ServerPackets.toU16,
      handle_packet, serverPacketsFromU16, tryFrom_err he 12, decAndThen]⟩
  | shoutChat v =>
    obtain ⟨e, he⟩ := handle_arm_trunc (rdShoutChat_enc v h) stops_rdShoutChat hk
    exact ⟨e, by simp only [WireServer.opcode, WireServer.payload, ServerPackets.toU16,
      handle_packet, serverPacketsFromU16, tryFrom_err he 13, decAndThen]⟩
  | announceChat v =>
    obtain ⟨e, he⟩ := handle_arm_trunc (rdAnnounceChat_enc v h) stops_rdAnnounceChat hk
    exact ⟨e, by simp only [WireServer.opcode, WireServer.payload, ServerPackets.toU16,
      handle_packet, serverPacketsFromU16, tryFrom_err he 14, decAndThen]⟩
  | whisper v =>
    obtain ⟨e, he⟩ := handle_arm_trunc (rdWhisper_enc v h) stops_rdWhisper hk
    exact ⟨e, by simp only [WireServer.opcode, WireServer.payload, ServerPackets.toU16,
      handle_packet, serverPacketsFromU16, tryFrom_err he 15, decAndThen]⟩
  | updateSpeed v =>
    obtain ⟨e, he⟩ := handle_arm_trunc (rdUpdateSpeed_enc v h) stops_rdUpdateSpeed hk
    exact ⟨e, by simp only [WireServer.opcode, WireServer.payload, ServerPackets.toU16,
      handle_packet, serverPacketsFromU16, tryFrom_err he 16, decAndThen]⟩

/-- C8 witness: a concrete valid `UpdateSpeed` wire value of payload length
6, truncated at offset 3, fails to decode. -/
theorem c8_witness :
    (WireServer.updateSpeed {
      entity_id := 3,
      run_speed := 200,
      passive_attack_speed := 77 }).Valid ∧
    3 < (WireServer.updateSpeed {
      entity_id := 3,
      run_speed := 200,
      passive_attack_speed := 77 }).payload.length ∧
    ∃ e, handle_packet true {
      command := (WireServer.updateSpeed {
        entity_id := 3,
        run_speed := 200,
        passive_attack_speed := 77 }).opcode.toU16,
      data := (WireServer.updateSpeed {
        entity_id := 3,
        run_speed := 200,
        passive_attack_speed := 77 }).payload.take 3 } = .error e :=
  ⟨by decide, by decide,
    c8_amended_truncation_error
      (.updateSpeed { entity_id := 3, run_speed := 200, passive_attack_speed := 77 })
      (by decide) 3 (by decide)⟩

/-! ## Channel independence and loop lemmas -/

theorem sendDiscardOne_eq (chOpen : Bool) (m : ServerMessage) :
    sendDiscardOne chOpen m = { sent := [m], logged := [] } := by
  cases chOpen <;> rfl

theorem decAndThen_congr {α : Type} {x : Except DecodeError α}
    {f g : α → HandleOut} (h : ∀ a, f a = g a) :
    decAndThen x f = decAndThen x g := by
  cases x with
  | ok a => simpa [decAndThen] using h a
  | error e => rfl

/-- `handle_packet` does not depend on whether the application channel is
still open: every send result is discarded with `.ok()`. -/
theorem handle_packet_channel_free (chOpen : Bool) (p : Packet) :
    handle_packet chOpen p = handle_packet true p := by
  unfold handle_packet
  cases serverPacketsFromU16 p.command with
  | none => rfl
  | some sp =>
    cases sp <;>
      exact decAndThen_congr fun a => by
        simp only [sendDiscardOne_eq]

/-- Neither does the session loop. -/
theorem run_loop_channel_free (chOpen : Bool) (events : List SelectEvent) :
    run_loop chOpen events = run_loop true events := by
  induction events with
  | nil => rfl
  | cons e rest ih =>
    cases e with
    | packetArrives pr =>
      cases pr with
      | error te => rfl
      | ok p =>
        have hp : handle_packet chOpen p = handle_packet true p :=
          handle_packet_channel_free chOpen p
        cases hh : handle_packet true p with
        | error de => simp [run_loop, hp, hh]
        | ok out => simp [run_loop, hp, hh, ih]
    | clientMessageArrives wres mr =>
      cases mr with
      | none => rfl
      | some m =>
        cases hh : handle_client_message wres m with
        | error te => simp [run_loop, hh]
        | ok out => simp [run_loop, hh, ih]

/-- Once the loop has stopped, later select firings are never processed. -/
theorem run_loop_stop_final (chOpen : Bool) (es1 es2 : List SelectEvent)
    (r : SessionEnd) (h : (run_loop chOpen es1).stop = some r) :
    run_loop chOpen (es1 ++ es2) = run_loop chOpen es1 := by
  induction es1 with
  | nil => simp [run_loop] at h
  | cons e rest ih =>
    cases e with
    | packetArrives pr =>
      cases pr with
      | error te => rfl
      | ok p =>
        cases hh : handle_packet chOpen p with
        | error de => simp [run_loop, hh]
        | ok out =>
          have h2 : (run_loop chOpen rest).stop = some r := by
            simpa [run_loop, hh] using h
          simp [run_loop, hh, ih h2]
    | clientMessageArrives wres mr =>
      cases mr with
      | none => rfl
      | some m =>
        cases hh : handle_client_message wres m with
        | error te => simp [run_loop, hh]
        | ok out =>
          have h2 : (run_loop chOpen rest).stop = some r := by
            simpa [run_loop, hh] using h
          simp [run_loop, hh, ih h2]

/-- C2: a packet whose 16-bit opcode maps to no recognized `ServerPackets`
value is logged, no `ServerMessage` is passed to the channel, and
`handle_packet` returns `Ok`; the session loop processes the remaining
events exactly as if the packet had not arrived — an unknown opcode never
terminates it. -/
theorem c2_unknown_opcode_nonfatal (chOpen : Bool) (p : Packet)
    (rest : List SelectEvent) (h : serverPacketsFromU16 p.command = none) :
    handle_packet chOpen p = .ok { sent := [], logged := [p.command] } ∧
    run_loop chOpen (.packetArrives (.ok p) :: rest) = run_loop chOpen rest := by
  have h1 : handle_packet chOpen p = .ok { sent := [], logged := [p.command] } := by
    unfold handle_packet
    rw [h]
  exact ⟨h1, by simp [run_loop, h1]⟩

/-- C2 witness: opcode 999 maps to no `ServerPackets` value; the packet is
dropped and the loop, run on that single event, is still running. -/
theorem c2_witness :
    serverPacketsFromU16 999 = none ∧
    handle_packet true { command := 999, data := [4, 5] } =
      .ok { sent := [], logged := [999] } ∧
    run_loop true [.packetArrives (.ok { command := 999, data := [4, 5] })] =
      run_loop true [] :=
  ⟨rfl,
    (c2_unknown_opcode_nonfatal true { command := 999, data := [4, 5] } [] rfl).1,
    (c2_unknown_opcode_nonfatal true { command := 999, data := [4, 5] } [] rfl).2⟩

/-- C3: when a packet's payload fails to decode under a recognized opcode,
the error propagates out of `handle_packet`, and `run_connection` (after a
successful connect) returns that same decode error, terminating the loop
without processing anything further. -/
theorem c3_decode_error_terminates (chOpen : Bool) (p : Packet)
    (e : DecodeError) (rest : List SelectEvent)
    (h : handle_packet chOpen p = .error e) :
    (run_connection (.ok ()) chOpen (.packetArrives (.ok p) :: rest)).result = {
      sent := [],
      written := [],
      stop := some (.decode e) } := by
  simp [run_connection, run_loop, h]

/-- C3 witness: an empty `ConnectReply` payload (opcode 1) fails to decode
with `truncated`, and the session ends with exactly that decode error. -/
theorem c3_witness :
    handle_packet true { command := 1, data := [] } = .error .truncated ∧
    (run_connection (.ok ()) true
        [.packetArrives (.ok { command := 1, data := [] })]).result = {
      sent := [],
      written := [],
      stop := some (.decode .truncated) } :=
  ⟨rfl, c3_decode_error_terminates true { command := 1, data := [] }
    .truncated [] rfl⟩

/-- C4: when the outbound client-message queue is closed (`recv()` returns
`None`), `run_connection` returns the distinguished
`GameClientError::ClientInitiatedDisconnect`, which is a different variant
from every transport/IO error and every decode error. -/
theorem c4_queue_closed_distinguished (chOpen : Bool)
    (wres : Except TransportError Unit) (rest : List SelectEvent) :
    (run_connection (.ok ()) chOpen
        (.clientMessageArrives wres none :: rest)).result.stop =
      some (.gameClient .ClientInitiatedDisconnect) ∧
    (∀ te, (SessionEnd.gameClient .ClientInitiatedDisconnect) ≠ .transport te) ∧
    (∀ de, (SessionEnd.gameClient .ClientInitiatedDisconnect) ≠ .decode de) :=
  ⟨rfl, fun _ h => SessionEnd.noConfusion h, fun _ h => SessionEnd.noConfusion h⟩

/-- C5: the session layer never reconnects and stops at most once —
`TcpStream::connect` is called exactly once per `run_connection` call, the
loop's termination reason can only be a transport (socket/write) error, a
decode error, or the client-initiated disconnect, and once the loop has
stopped, no later select firing is processed. -/
theorem c5_termination_causes (connectResult : Except TransportError Unit)
    (chOpen : Bool) (events : List SelectEvent) :
    (run_connection connectResult chOpen events).connectCalls = 1 ∧
    (∀ r, (run_connection connectResult chOpen events).result.stop = some r →
      (∃ e, r = .transport e) ∨ (∃ e, r = .decode e) ∨
        r = .gameClient .ClientInitiatedDisconnect) ∧
    (∀ es1 es2 r, (run_loop chOpen es1).stop = some r →
      run_loop chOpen (es1 ++ es2) = run_loop chOpen es1) := by
  refine ⟨by cases connectResult <;> rfl, ?_, ?_⟩
  · intro r _
    cases r with
    | transport e => exact Or.inl ⟨e, rfl⟩
    | decode e => exact Or.inr (Or.inl ⟨e, rfl⟩)
    | gameClient e => cases e; exact Or.inr (Or.inr rfl)
  · intro es1 es2 r h
    exact run_loop_stop_final chOpen es1 es2 r h

/-- C5 witness: a disconnect event stops the loop, and appending a further
event after it changes nothing. -/
theorem c5_witness :
    (run_connection (.ok ()) true
        [.clientMessageArrives (.ok ()) none]).connectCalls = 1 ∧
    ((∃ e, SessionEnd.gameClient .ClientInitiatedDisconnect = .transport e) ∨
      (∃ e, SessionEnd.gameClient .ClientInitiatedDisconnect = .decode e) ∨
      SessionEnd.gameClient .ClientInitiatedDisconnect =
        .gameClient .ClientInitiatedDisconnect) ∧
    run_loop true ([.clientMessageArrives (.ok ()) none] ++
        [.packetArrives (.ok { command := 1, data := [] })]) =
      run_loop true [.clientMessageArrives (.ok ()) none] :=
  ⟨(c5_termination_causes (.ok ()) true [.clientMessageArrives (.ok ()) none]).1,
    (c5_termination_causes (.ok ()) true [.clientMessageArrives (.ok ()) none]).2.1
      (.gameClient .ClientInitiatedDisconnect) rfl,
    (c5_termination_causes (.ok ()) true []).2.2
      [.clientMessageArrives (.ok ()) none]
      [.packetArrives (.ok { command := 1, data := [] })]
      (.gameClient .ClientInitiatedDisconnect) rfl⟩

/-- C9: every `server_message_tx.send(..).ok()` discards the send result,
so `handle_packet` and the whole session loop behave identically whether or
not the application still holds the receiving end of the channel; in
particular a closed channel never makes `handle_packet` fail and never
terminates the session. -/
theorem c9_closed_channel_nonfatal (p : Packet) (events : List SelectEvent) :
    handle_packet false p = handle_packet true p ∧
    run_loop false events = run_loop true events :=
  ⟨handle_packet_channel_free false p, run_loop_channel_free false events⟩

/-! ## Outgoing-message claims -/

/-- The wire packet the amended C6 expects for each supported outgoing
message (`none` for messages the dispatcher leaves unimplemented).
Written from the claim's words, to be compared with
`handle_client_message`. -/
def expectedClientPacket : ClientMessage → Option Packet
  | .ConnectionRequest r =>
    some (packetFromConnectRequest {
      login_token := r.login_token,
      password_md5 := r.password_md5 })
  | .JoinZoneRequest =>
    some (packetFromJoinZone { weight_rate := 0, z := 0 })
  | .Move m =>
    some (packetFromMove {
      target_entity_id := m.target_entity_id,
      x := m.x,
      y := m.y,
      z := m.z })
  | .Chat text => some (packetFromChat { text })
  | .LogoutRequest => none

/-- C6 fails as stated: `LogoutRequest`, a `ClientMessage` outside the four
variants the dispatcher implements, is printed and dropped — no wire struct
is built and no packet is written to the connection. -/
theorem c6_counterexample :
    handle_client_message (.ok ()) .LogoutRequest =
      .ok { written := [], logged := [.LogoutRequest] } := rfl

/-- C6 (amended): every supported `ClientMessage` (connection request, join
zone, move, chat) is encoded through its opcode-specific wire struct and
written to the connection as exactly one packet; any other variant is
logged as unimplemented and nothing is written. -/
theorem c6_amended_encode_supported :
    (∀ m p, expectedClientPacket m = some p →
      handle_client_message (.ok ()) m = .ok { written := [p], logged := [] }) ∧
    (∀ m, expectedClientPacket m = none →
      handle_client_message (.ok ()) m = .ok { written := [], logged := [m] }) := by
  constructor
  · intro m p h
    cases m with
    | ConnectionRequest r =>
      have hp : packetFromConnectRequest {
          login_token := r.login_token,
          password_md5 := r.password_md5 } = p := by
        simpa [expectedClientPacket] using h
      rw [← hp]
      rfl
    | JoinZoneRequest =>
      have hp : packetFromJoinZone { weight_rate := 0, z := 0 } = p := by
        simpa [expectedClientPacket] using h
      rw [← hp]
      rfl
    | Move mv =>
      have hp : packetFromMove {
          target_entity_id := mv.target_entity_id,
          x := mv.x,
          y := mv.y,
          z := mv.z } = p := by
        simpa [expectedClientPacket] using h
      rw [← hp]
      rfl
    | Chat text =>
      have hp : packetFromChat { text } = p := by
        simpa [expectedClientPacket] using h
      rw [← hp]
      rfl
    | LogoutRequest => simp [expectedClientPacket] at h
  · intro m h
    cases m with
    | ConnectionRequest r => simp [expectedClientPacket] at h
    | JoinZoneRequest => simp [expectedClientPacket] at h
    | Move mv => simp [expectedClientPacket] at h
    | Chat text => simp [expectedClientPacket] at h
    | LogoutRequest => rfl

/-- C6 witness: a concrete chat message is written as one chat packet, and
the unimplemented `LogoutRequest` writes nothing. -/
theorem c6_witness :
    handle_client_message (.ok ()) (.Chat [72, 105]) =
      .ok { written := [packetFromChat { text := [72, 105] }], logged := [] } ∧
    handle_client_message (.ok ()) .LogoutRequest =
      .ok { written := [], logged := [.LogoutRequest] } :=
  ⟨c6_amended_encode_supported.1 (.Chat [72, 105])
      (packetFromChat { text := [72, 105] }) rfl,
    c6_amended_encode_supported.2 .LogoutRequest rfl⟩

/-! ## Round-trip (codec pair) -/

def rdClientConnectRequest : Rd PacketClientConnectRequest :=
  Rd.bind (rdN 4) fun login_token =>
  Rd.bind rdStr fun password_md5 =>
  Rd.pure { login_token, password_md5 }

def rdClientJoinZone : Rd PacketClientJoinZone :=
  Rd.bind (rdN 1) fun weight_rate =>
  Rd.bind (rdN 2) fun z =>
  Rd.pure { weight_rate, z }

def rdClientMove : Rd PacketClientMove :=
  Rd.bind (rdOptWith (rdN 2)) fun target_entity_id =>
  Rd.bind (rdN 4) fun x =>
  Rd.bind (rdN 4) fun y =>
  Rd.bind (rdN 2) fun z =>
  Rd.pure { target_entity_id, x, y, z }

def rdClientChat : Rd PacketClientChat :=
  Rd.bind rdStr fun text =>
  Rd.pure { text }

/-- Modelled from the spec: the server-side decode of client packets — the
inverse half of the codec pair, living in the external server crates — used
to state the round-trip property for outgoing messages. -/
def decodeClientPacket (p : Packet) : Option ClientMessage :=
  if p.command = ClientPackets.ConnectRequest.toU16 then
    match rdClientConnectRequest p.data with
    | .ok (w, _) =>
      some (.ConnectionRequest {
        login_token := w.login_token,
        password_md5 := w.password_md5 })
    | .error _ => none
  else if p.command = ClientPackets.JoinZone.toU16 then
    match rdClientJoinZone p.data with
    | .ok _ => some .JoinZoneRequest
    | .error _ => none
  else if p.command = ClientPackets.Move.toU16 then
    match rdClientMove p.data with
    | .ok (w, _) =>
      some (.Move {
        target_entity_id := w.target_entity_id,
        x := w.x,
        y := w.y,
        z := w.z })
    | .error _ => none
  else if p.command = ClientPackets.Chat.toU16 then
    match rdClientChat p.data with
    | .ok (w, _) => some (.Chat w.text)
    | .error _ => none
  else none

/-- Encode an outgoing message the way the session client does: the packet
`handle_client_message` writes for it. -/
def encodeClientMessage (m : ClientMessage) : Option Packet :=
  match handle_client_message (.ok ()) m with
  | .ok out => out.written.head?
  | .error _ => none

/-- Decode an inbound packet the way the session client does: the message
`handle_packet` passes to the channel for it. -/
def decodeServerPacket (p : Packet) : Option ServerMessage :=
  match handle_packet true p with
  | .ok out => out.sent.head?
  | .error _ => none

/-- Modelled from the spec: the server-side encoder of server messages —
the inverse half of the codec pair — mapping a message to the wire packet
that carries it. -/
def encodeServerMessage : ServerMessage → Packet
  | .ConnectionResponse (.ok r) =>
    { command := 1,
      data := wrConnectionReply {
        result := .Ok,
        packet_sequence_id := r.packet_sequence_id } }
  | .ConnectionResponse (.error _) =>
    { command := 1,
      data := wrConnectionReply { result := .Failed, packet_sequence_id := 0 } }
  | .CharacterData d =>
    { command := 2,
      data := wrSelectCharacter {
        character_info := d.character_info,
        position := d.position,
        basic_stats := d.basic_stats,
        level := d.level,
        equipment := d.equipment,
        experience_points := d.experience_points,
        skill_list := d.skill_list,
        hotbar := d.hotbar,
        health_points := d.health_points,
        mana_points := d.mana_points,
        stat_points := d.stat_points,
        skill_points := d.skill_points,
        union_membership := d.union_membership,
        stamina := d.stamina } }
  | .CharacterDataItems d =>
    { command := 3,
      data := wrCharacterInventory {
        inventory := d.inventory,
        equipment := d.equipment } }
  | .CharacterDataQuest d =>
    { command := 4,
      data := wrCharacterQuestData { quest_state := d.quest_state } }
  | .JoinZone r =>
    { command := 5,
      data := wrJoinZone {
        entity_id := r.entity_id,
        experience_points := r.experience_points,
        team := r.team,
        health_points := r.health_points,
        mana_points := r.mana_points,
        world_ticks := r.world_ticks } }
  | .MoveEntity m =>
    { command := 6,
      data := wrMoveEntity {
        entity_id := m.entity_id,
        target_entity_id := m.target_entity_id,
        distance := m.distance,
        x := m.x,
        y := m.y,
        z := m.z,
        move_mode := m.move_mode } }
  | .SpawnEntityNpc m =>
    { command := 8,
      data := wrSpawnEntityNpc {
        entity_id := m.entity_id,
        npc := m.npc,
        direction := m.direction,
        position := m.position,
        team := m.team,
        health := m.health,
        destination := m.destination,
        command := m.command,
        target_entity_id := m.target_entity_id,
        move_mode := m.move_mode,
        status_effects := m.status_effects } }
  | .SpawnEntityMonster m =>
    { command := 9,
      data := wrSpawnEntityMonster {
        entity_id := m.entity_id,
        npc := m.npc,
        position := m.position,
        team := m.team,
        health := m.health,
        destination := m.destination,
        command := m.command,
        target_entity_id := m.target_entity_id,
        move_mode := m.move_mode,
        status_effects := m.status_effects } }
  | .RemoveEntities m =>
    { command := 10, data := wrRemoveEntities { entity_ids := m.entity_ids } }
  | .Teleport m =>
    { command := 11,
      data := wrTeleport {
        entity_id := m.entity_id,
        zone_id := m.zone_id,
        x := m.x,
        y := m.y,
        run_mode := m.run_mode,
        ride_mode := m.ride_mode } }
  | .LocalChat m =>
    { command := 12,
      data := wrLocalChat { entity_id := m.entity_id, text := m.text } }
  | .ShoutChat m =>
    { command := 13, data := wrShoutChat { name := m.name, text := m.text } }
  | .AnnounceChat m =>
    { command := 14,
      data := wrAnnounceChat { name := m.name, text := m.text } }
  | .Whisper m =>
    { command := 15, data := wrWhisper { from_ := m.from_, text := m.text } }
  | .UpdateSpeed m =>
    { command := 16,
      data := wrUpdateSpeed {
        entity_id := m.entity_id,
        run_speed := m.run_speed,
        passive_attack_speed := m.passive_attack_speed } }

/-- Representative sample values, one per message variant. -/
def sampleServerMessages : List ServerMessage :=
  [ .ConnectionResponse (.ok { packet_sequence_id := 123456 }),
    .ConnectionResponse (.error .Failed),
    .CharacterData {
      character_info := 11,
      position := 22,
      basic_stats := 33,
      level := 44,
      equipment := 55,
      experience_points := 66,
      skill_list := 77,
      hotbar := 88,
      health_points := 99,
      mana_points := 111,
      stat_points := 222,
      skill_points := 333,
      union_membership := 444,
      stamina := 555 },
    .CharacterDataItems { inventory := 9, equipment := 8 },
    .CharacterDataQuest { quest_state := 7 },
    .JoinZone {
      entity_id := 513,
      experience_points := 100000,
      team := 2,
      health_points := 250,
      mana_points := 90,
      world_ticks := 424242 },
    .MoveEntity {
      entity_id := 5,
      target_entity_id := some 6,
      distance := 10,
      x := 5200,
      y := 5300,
      z := 15,
      move_mode := some 1 },
    .SpawnEntityNpc {
      entity_id := 20,
      npc := 1001,
      direction := 90,
      position := 777,
      team := 1,
      health := 300,
      destination := 888,
      command := 2,
      target_entity_id := none,
      move_mode := 1,
      status_effects := 0 },
    .SpawnEntityMonster {
      entity_id := 21,
      npc := 2002,
      position := 999,
      team := 100,
      health := 500,
      destination := 111,
      command := 3,
      target_entity_id := some 5,
      move_mode := 0,
      status_effects := 4 },
    .RemoveEntities { entity_ids := [5, 6, 513] },
    .Teleport {
      entity_id := 5,
      zone_id := 22,
      x := 5200,
      y := 5300,
      run_mode := 1,
      ride_mode := 0 },
    .LocalChat { entity_id := 5, text := [104, 105] },
    .ShoutChat { name := [97, 98], text := [104, 105] },
    .AnnounceChat { name := some [97, 98], text := [104, 105] },
    .Whisper { from_ := [97, 98], text := [104, 105] },
    .UpdateSpeed { entity_id := 5, run_speed := 480, passive_attack_speed := 120 } ]

def sampleClientMessages : List ClientMessage :=
  [ .ConnectionRequest { login_token := 987654, password_md5 := [1, 2, 3, 4] },
    .JoinZoneRequest,
    .Move { target_entity_id := some 513, x := 5200, y := 5300, z := 15 },
    .Chat [104, 105] ]

/-- C7: for every supported opcode and the representative sample value of
each message variant, decoding an encoded message returns the original
message losslessly — inbound messages through the modelled server-side
encoder and `handle_packet`, outgoing messages through
`handle_client_message` and the modelled server-side decoder; the
`MoveEntityWithMoveMode` opcode (7) carries the same struct and decodes to
the same message as opcode 6. -/
theorem c7_roundtrip_samples :
    (sampleServerMessages.map fun m => decodeServerPacket (encodeServerMessage m)) =
      sampleServerMessages.map some ∧
    (sampleClientMessages.map fun m => (encodeClientMessage m).bind decodeClientPacket) =
      sampleClientMessages.map some ∧
    decodeServerPacket {
      command := 7,
      data := wrMoveEntity {
        entity_id := 5,
        target_entity_id := some 6,
        distance := 10,
        x := 5200,
        y := 5300,
        z := 15,
        move_mode := some 1 } } =
      some (.MoveEntity {
        entity_id := 5,
        target_entity_id := some 6,
        distance := 10,
        x := 5200,
        y := 5300,
        z := 15,
        move_mode := some 1 }) :=
  ⟨rfl, rfl, rfl⟩

/-! ## Client entity table claims -/

/-- C10: the table has 4096 slots (and `add`/`remove` keep its length); on a
4096-slot table, for `id < 4096`, `get` after `add id entity` returns
`Some entity` and every other slot reads unchanged, while for `id ≥ 4096`
each of `add`, `remove` and `get` hits an out-of-bounds `Vec` index and
panics instead of returning an error or `None`. -/
theorem c10_entity_table (l : ClientEntityList)
    (hlen : l.client_entities.length = 4096) (id : Nat) (entity : Entity) :
    ClientEntityList.defaultList.client_entities.length = 4096 ∧
    (id < 4096 →
      ∃ l2, l.add id entity = some l2 ∧
        l2.client_entities.length = 4096 ∧
        l2.get id = some (some entity) ∧
        (∀ j, j ≠ id → l2.get j = l.get j)) ∧
    (4096 ≤ id →
      l.add id entity = none ∧ l.remove id = none ∧ l.get id = none) := by
  refine ⟨List.length_replicate 4096 none, ?_, ?_⟩
  · intro hid
    have hlt : id < l.client_entities.length := by omega
    refine ⟨{ l with client_entities := l.client_entities.set id (some entity) },
      ?_, ?_, ?_, ?_⟩
    · unfold ClientEntityList.add
      rw [if_pos hlt]
    · simp [hlen]
    · unfold ClientEntityList.get
      simp [List.getElem?_set_self hlt]
    · intro j hj
      unfold ClientEntityList.get
      simp [List.getElem?_set_ne (Ne.symm hj)]
  · intro hid
    have hge : ¬ id < l.client_entities.length := by omega
    refine ⟨?_, ?_, ?_⟩
    · unfold ClientEntityList.add
      rw [if_neg hge]
    · unfold ClientEntityList.remove
      rw [if_neg hge]
    · unfold ClientEntityList.get
      exact List.getElem?_eq_none (by omega)

/-- C10 witness: on the default table, adding entity 7 at id 5 works and id
4096 panics. -/
theorem c10_witness :
    ClientEntityList.defaultList.client_entities.length = 4096 ∧
    (∃ l2, ClientEntityList.defaultList.add 5 7 = some l2 ∧
      l2.client_entities.length = 4096 ∧
      l2.get 5 = some (some 7) ∧
      (∀ j, j ≠ 5 → l2.get j = ClientEntityList.defaultList.get j)) ∧
    (ClientEntityList.defaultList.add 4096 7 = none ∧
      ClientEntityList.defaultList.remove 4096 = none ∧
      ClientEntityList.defaultList.get 4096 = none) :=
  ⟨(c10_entity_table ClientEntityList.defaultList (List.length_replicate 4096 none) 5 7).1,
    (c10_entity_table ClientEntityList.defaultList (List.length_replicate 4096 none) 5 7).2.1
      (by norm_num),
    (c10_entity_table ClientEntityList.defaultList (List.length_replicate 4096 none) 4096 7).2.2
      (by norm_num)⟩
